import Mathlib

set_option maxRecDepth 100000

/-!
Verification of the Sakila MCP server (src/sakila_mcp/server.py).

Python values flowing through the dispatcher are modelled by `PyVal`;
Python exceptions by `PyExc` (the dispatcher only distinguishes
`ValueError` from every other exception).  Decimal and date values
coming back from the database carry both their numeric value (as an
exact rational, modelling real arithmetic) and the text produced by
Python `str()` on them, since the serializer renders them via
`default=str`.
-/

inductive PyExc where
  | valueError (msg : String)
  | otherErr
deriving DecidableEq, Repr

inductive PyVal where
  | null
  | str (s : String)
  | int (n : Int)
  | float (q : ℚ)
  | bool (b : Bool)
  | list (xs : List PyVal)
  | dict (kvs : List (String × PyVal))
  | date (s : String)
  | decimal (q : ℚ) (s : String)

/-- Python truthiness (`if x:`) over the modelled values. -/
def truthy : PyVal → Bool
  | .null => false
  | .str s => !s.data.isEmpty
  | .int n => n != 0
  | .float q => q != 0
  | .bool b => b
  | .list xs => !xs.isEmpty
  | .dict kvs => !kvs.isEmpty
  | .date _ => true
  | .decimal q _ => q != 0

/-- `%s` placeholders in a SQL text: non-overlapping occurrences of the
two-character sequence `%s`, counted over the character list. -/
def countPS : List Char → Nat
  | [] => 0
  | '%' :: 's' :: rest => countPS rest + 1
  | _ :: rest => countPS rest

def countPlaceholders (s : String) : Nat := countPS s.data

/-- Python `str.upper()` (ASCII, as all compared values here are ASCII). -/
def strUpper (s : String) : String := ⟨s.data.map Char.toUpper⟩

/-- Python `str.lower()` (ASCII, as all compared values here are ASCII). -/
def strLower (s : String) : String := ⟨s.data.map Char.toLower⟩

/-- Rendering of exact rationals as text.  Python's textual rendering of
floats / Decimals is not modelled faithfully (no claim depends on the
digits); integral values render as Python does (`"3.0"`). -/
def ratText (q : ℚ) : String :=
  if q.den = 1 then toString q.num ++ ".0" else toString q.num ++ "/" ++ toString q.den

mutual

/-- Python `str()` of a value appearing inside a container (repr form). -/
def pyStrItem : PyVal → String
  | .null => "None"
  | .str s => "'" ++ s ++ "'"
  | .int n => toString n
  | .float q => ratText q
  | .bool b => if b then "True" else "False"
  | .list xs => "[" ++ pyStrItems xs ++ "]"
  | .dict kvs => "\x7b" ++ pyStrPairs kvs ++ "\x7d"
  | .date s => "'" ++ s ++ "'"
  | .decimal _ s => "Decimal('" ++ s ++ "')"

def pyStrItems : List PyVal → String
  | [] => ""
  | [x] => pyStrItem x
  | x :: y :: rest => pyStrItem x ++ ", " ++ pyStrItems (y :: rest)

def pyStrPairs : List (String × PyVal) → String
  | [] => ""
  | [(k, v)] => "'" ++ k ++ "': " ++ pyStrItem v
  | (k, v) :: p :: rest => "'" ++ k ++ "': " ++ pyStrItem v ++ ", " ++ pyStrPairs (p :: rest)

end

/-- Python `str()` / f-string conversion of a value. -/
def pyStr : PyVal → String
  | .str s => s
  | .date s => s
  | .decimal _ s => s
  | v => pyStrItem v

def digitsValGo : List Char → Nat → Option Nat
  | [], acc => some acc
  | c :: rest, acc => if c.isDigit then digitsValGo rest (acc * 10 + (c.toNat - 48)) else none

/-- Decimal digits of a string, as a number; `none` unless nonempty and all digits. -/
def digitsVal : List Char → Option Nat
  | [] => none
  | cs => digitsValGo cs 0

/-- Python `int(s)` on a string: optional surrounding whitespace, optional
sign, decimal digits; anything else raises `ValueError`. -/
def stripWs (cs : List Char) : List Char :=
  ((cs.dropWhile Char.isWhitespace).reverse.dropWhile Char.isWhitespace).reverse

def parseIntStr (s : String) : Option Int :=
  match stripWs s.data with
  | '+' :: rest => (digitsVal rest).map Int.ofNat
  | '-' :: rest => (digitsVal rest).map (fun n => -(n : Int))
  | t => (digitsVal t).map Int.ofNat

/-- Python `int(x)` coercion.  Rationals (floats) truncate toward zero. -/
def pyToInt : PyVal → Except PyExc Int
  | .int n => .ok n
  | .bool b => .ok (if b then 1 else 0)
  | .float q => .ok (q.num.tdiv (q.den : Int))
  | .str s =>
      match parseIntStr s with
      | some n => .ok n
      | none => .error (.valueError ("invalid literal for int() with base 10: '" ++ s ++ "'"))
  | _ => .error .otherErr

def parseFloatBody (cs : List Char) : Option ℚ :=
  match cs.span Char.isDigit with
  | (intPart, rest) =>
    match rest with
    | [] => (digitsVal intPart).map (fun n => (n : ℚ))
    | '.' :: frac =>
        if intPart.isEmpty ∧ frac.isEmpty then none
        else if frac.all Char.isDigit then
          some ((((digitsVal intPart).getD 0 : ℚ)) +
            (((digitsVal frac).getD 0 : ℚ)) / ((10 : ℚ) ^ frac.length))
        else none
    | _ => none

/-- Python `float(s)` on a string: optional sign, digits, optional fraction. -/
def parseFloatStr (s : String) : Option ℚ :=
  match stripWs s.data with
  | '+' :: rest => parseFloatBody rest
  | '-' :: rest => (parseFloatBody rest).map Neg.neg
  | t => parseFloatBody t

/-- Python `float(x)` coercion. -/
def pyFloat : PyVal → Except PyExc ℚ
  | .int n => .ok n
  | .float q => .ok q
  | .bool b => .ok (if b then 1 else 0)
  | .decimal q _ => .ok q
  | .str s =>
      match parseFloatStr s with
      | some q => .ok q
      | none => .error (.valueError ("could not convert string to float: '" ++ s ++ "'"))
  | _ => .error .otherErr

/-- Numeric view used for ordered comparison against an int; a non-numeric
operand raises `TypeError` (modelled as `otherErr`), as Python does. -/
def pyCmpQ : PyVal → Except PyExc ℚ
  | .int n => .ok n
  | .float q => .ok q
  | .bool b => .ok (if b then 1 else 0)
  | .decimal q _ => .ok q
  | _ => .error .otherErr

def pyGtInt (v : PyVal) (k : Int) : Except PyExc Bool := do
  let q ← pyCmpQ v
  pure (decide ((k : ℚ) < q))

def pyGeInt (v : PyVal) (k : Int) : Except PyExc Bool := do
  let q ← pyCmpQ v
  pure (decide ((k : ℚ) ≤ q))

/-- Python `+` on the values that `sum(...)` meets in this program. -/
def pyAdd : PyVal → PyVal → Except PyExc PyVal
  | .int a, .int b => .ok (.int (a + b))
  | .int a, .float b => .ok (.float (a + b))
  | .int a, .bool b => .ok (.int (a + if b then 1 else 0))
  | .int a, .decimal q _ => .ok (.decimal (a + q) (ratText (a + q)))
  | .float a, .int b => .ok (.float (a + b))
  | .float a, .float b => .ok (.float (a + b))
  | .float a, .bool b => .ok (.float (a + if b then 1 else 0))
  | .decimal a _, .int b => .ok (.decimal (a + b) (ratText (a + b)))
  | .decimal a _, .decimal b _ => .ok (.decimal (a + b) (ratText (a + b)))
  | _, _ => .error .otherErr

/-- Python `sum(xs)` (starts from the int `0`). -/
def pySum (xs : List PyVal) : Except PyExc PyVal :=
  xs.foldlM (fun acc x => pyAdd acc x) (.int 0)

/-- A database row as returned by `aiomysql.DictCursor`. -/
abbrev Row := List (String × PyVal)

/-- `r[k]` on a row dict; a missing key raises `KeyError`. -/
def getKey (r : Row) (k : String) : Except PyExc PyVal :=
  match r.lookup k with
  | some v => .ok v
  | none => .error .otherErr

/-- `r[k] = v` on a row dict (replace in place, or append a new key). -/
def setKey : Row → String → PyVal → Row
  | [], k, v => [(k, v)]
  | (k0, v0) :: rest, k, v =>
      if k0 = k then (k0, v) :: rest else (k0, v0) :: setKey rest k v

/-- `arguments.get(k, d)` on the dispatcher's argument mapping. -/
def argGet (a : List (String × PyVal)) (k : String) (d : PyVal) : PyVal :=
  (a.lookup k).getD d

/-- The database collaborator: `execute_query(sql, params)` abstracted as an
oracle from the SQL text and bound parameters to rows (or a driver fault). -/
abbrev Db := String → List PyVal → Except PyExc (List Row)

-- =========================================================================
-- Validation constants and validators (server.py lines 27-106)
-- =========================================================================

def VALID_RATINGS : List String := ["G", "PG", "PG-13", "R", "NC-17"]

def VALID_STORES : List Int := [1, 2]

def VALID_RENTAL_STATUS : List String := ["all", "active", "returned"]

def VALID_GROUP_BY : List String := ["store", "category", "month", "staff"]

def VALID_PERIOD : List String := ["all_time", "last_month", "last_week"]

def VALID_METRICS : List String := ["rentals", "spending"]

def MAX_LIMIT : Int := 50

def DEFAULT_LIMIT : Int := 10

/-- `', '.join(sorted(VALID_RATINGS))`: lexicographically sorted. -/
def ratingsSortedText : String := "G, NC-17, PG, PG-13, R"

/-- `validate_rating` (lines 43-50).  Calling `.upper()` on a non-string
raises `AttributeError` (modelled `otherErr`). -/
def validate_rating : PyVal → Except PyExc (Option String)
  | .null => .ok none
  | .str r =>
      let ru := strUpper r
      if VALID_RATINGS.contains ru then .ok (some ru)
      else .error (.valueError ("無効なレーティング: " ++ r ++ "。有効な値: " ++ ratingsSortedText))
  | _ => .error .otherErr

/-- Python `==` between a value and the int `k`, as used by the set
membership `store_id not in {1, 2}` (numeric kinds compare by value). -/
def pyEqNum (v : PyVal) (k : Int) : Bool :=
  match v with
  | .int n => n == k
  | .bool b => (if b then (1 : Int) else 0) == k
  | .float q => q == (k : ℚ)
  | .decimal q _ => q == (k : ℚ)
  | _ => false

/-- `validate_store_id` (lines 53-59).  Unhashable values raise `TypeError`
at the set-membership test. -/
def validate_store_id : PyVal → Except PyExc (Option PyVal)
  | .null => .ok none
  | .list _ => .error .otherErr
  | .dict _ => .error .otherErr
  | v =>
      if pyEqNum v 1 || pyEqNum v 2 then .ok (some v)
      else .error (.valueError ("無効な店舗ID: " ++ pyStr v ++ "。有効な値: 1, 2"))

/-- `validate_limit` (lines 62-66): `max(1, min(max_limit, int(limit)))`.
The Python default `max_limit=50` (`MAX_LIMIT`) is passed explicitly at
intent-mode call sites. -/
def validate_limit (limit : PyVal) (max_limit : Int) : Except PyExc Int :=
  match limit with
  | .null => .ok DEFAULT_LIMIT
  | v => do
      let n ← pyToInt v
      pure (max 1 (min max_limit n))

/-- `validate_rental_status` (lines 69-76). -/
def validate_rental_status : PyVal → Except PyExc String
  | .null => .ok "all"
  | .str s =>
      let sl := strLower s
      if VALID_RENTAL_STATUS.contains sl then .ok sl
      else .error (.valueError ("無効なステータス: " ++ s ++ "。有効な値: all, active, returned"))
  | _ => .error .otherErr

/-- `validate_group_by` (lines 79-86). -/
def validate_group_by : PyVal → Except PyExc String
  | .null => .ok "store"
  | .str s =>
      let sl := strLower s
      if VALID_GROUP_BY.contains sl then .ok sl
      else .error (.valueError ("無効な集計単位: " ++ s ++ "。有効な値: store, category, month, staff"))
  | _ => .error .otherErr

/-- `validate_period` (lines 89-96). -/
def validate_period : PyVal → Except PyExc String
  | .null => .ok "all_time"
  | .str s =>
      let sl := strLower s
      if VALID_PERIOD.contains sl then .ok sl
      else .error (.valueError ("無効な期間: " ++ s ++ "。有効な値: all_time, last_month, last_week"))
  | _ => .error .otherErr

/-- `validate_metric` (lines 99-106). -/
def validate_metric : PyVal → Except PyExc String
  | .null => .ok "spending"
  | .str s =>
      let sl := strLower s
      if VALID_METRICS.contains sl then .ok sl
      else .error (.valueError ("無効なメトリクス: " ++ s ++ "。有効な値: rentals, spending"))
  | _ => .error .otherErr

example : countPlaceholders "WHERE a = %s AND b LIKE %s -- 50%" = 2 := by decide

example : truthy (.str "Store 'x'") = true := by decide

example : validate_rating (.str "pg-13") = .ok (some "PG-13") := rfl

example : validate_limit (.int 200) 50 = .ok 50 := rfl

example : validate_limit .null 100 = .ok 10 := rfl

-- =========================================================================
-- SQL texts (verbatim from server.py) and query-construction portions
-- =========================================================================

def searchFilmsSqlBase : String :=
  "\n        SELECT DISTINCT\n            f.title,\n            f.description,\n            f.release_year,\n            f.rating,\n            c.name as category,\n            f.rental_rate,\n            f.length as length_minutes\n        FROM film f\n        LEFT JOIN film_category fc ON f.film_id = fc.film_id\n        LEFT JOIN category c ON fc.category_id = c.category_id\n        LEFT JOIN film_actor fa ON f.film_id = fa.film_id\n        LEFT JOIN actor a ON fa.actor_id = a.actor_id\n        WHERE 1=1\n    "

def filmDetailsSql : String :=
  "\n        SELECT\n            f.title,\n            f.description,\n            f.release_year,\n            f.rating,\n            f.rental_rate,\n            f.rental_duration as rental_duration_days,\n            f.length as length_minutes,\n            f.replacement_cost,\n            f.special_features\n        FROM film f\n        WHERE f.title LIKE %s\n        LIMIT 1\n    "

def filmCategoriesSql : String :=
  "\n        SELECT c.name\n        FROM category c\n        JOIN film_category fc ON c.category_id = fc.category_id\n        JOIN film f ON fc.film_id = f.film_id\n        WHERE f.title = %s\n    "

def filmActorsSql : String :=
  "\n        SELECT CONCAT(a.first_name, ' ', a.last_name) as name\n        FROM actor a\n        JOIN film_actor fa ON a.actor_id = fa.actor_id\n        JOIN film f ON fa.film_id = f.film_id\n        WHERE f.title = %s\n        ORDER BY a.last_name, a.first_name\n    "

def filmInventorySql : String :=
  "\n        SELECT\n            COUNT(i.inventory_id) as total_copies,\n            COUNT(i.inventory_id) - COUNT(r.rental_id) as available_copies\n        FROM inventory i\n        JOIN film f ON i.film_id = f.film_id\n        LEFT JOIN rental r ON i.inventory_id = r.inventory_id AND r.return_date IS NULL\n        WHERE f.title = %s\n    "

def availStoresSqlBase : String :=
  "\n        SELECT\n            s.store_id,\n            CONCAT('Store ', s.store_id) as store,\n            COUNT(i.inventory_id) as total,\n            COUNT(i.inventory_id) - COUNT(r.rental_id) as available\n        FROM store s\n        JOIN inventory i ON s.store_id = i.store_id\n        JOIN film f ON i.film_id = f.film_id\n        LEFT JOIN rental r ON i.inventory_id = r.inventory_id AND r.return_date IS NULL\n        WHERE f.title = %s\n    "

def actorLookupSql : String :=
  "\n        SELECT actor_id, CONCAT(first_name, ' ', last_name) as name\n        FROM actor\n        WHERE CONCAT(first_name, ' ', last_name) LIKE %s\n        LIMIT 1\n    "

def actorFilmsSql : String :=
  "\n        SELECT f.title, f.release_year, c.name as category\n        FROM film f\n        JOIN film_actor fa ON f.film_id = fa.film_id\n        JOIN film_category fc ON f.film_id = fc.film_id\n        JOIN category c ON fc.category_id = c.category_id\n        WHERE fa.actor_id = %s\n        ORDER BY f.release_year DESC, f.title\n    "

def searchCustomersSqlBase : String :=
  "\n        SELECT\n            c.customer_id,\n            CONCAT(c.first_name, ' ', c.last_name) as name,\n            c.email,\n            CONCAT('Store ', c.store_id) as store,\n            c.active,\n            DATE(c.create_date) as registration_date\n        FROM customer c\n        WHERE 1=1\n    "

def customerDetailsSqlBase : String :=
  "\n        SELECT\n            c.customer_id,\n            CONCAT(c.first_name, ' ', c.last_name) as name,\n            c.email,\n            CONCAT(a.address, ', ', ci.city, ', ', co.country) as address,\n            a.phone,\n            CONCAT('Store ', c.store_id) as store,\n            c.active,\n            DATE(c.create_date) as registration_date\n        FROM customer c\n        JOIN address a ON c.address_id = a.address_id\n        JOIN city ci ON a.city_id = ci.city_id\n        JOIN country co ON ci.country_id = co.country_id\n        WHERE 1=1\n    "

def customerStatsSql : String :=
  "\n        SELECT\n            COUNT(r.rental_id) as total_rentals,\n            COALESCE(SUM(p.amount), 0) as total_spent,\n            COUNT(CASE WHEN r.return_date IS NULL THEN 1 END) as outstanding_rentals\n        FROM customer c\n        LEFT JOIN rental r ON c.customer_id = r.customer_id\n        LEFT JOIN payment p ON r.rental_id = p.rental_id\n        WHERE c.customer_id = %s\n    "

def custLookupSql : String :=
  "\n        SELECT customer_id, CONCAT(first_name, ' ', last_name) as name\n        FROM customer WHERE customer_id = %s\n    "

def customerRentalsSqlBase : String :=
  "\n        SELECT\n            r.rental_id,\n            f.title as film_title,\n            r.rental_date,\n            r.return_date,\n            CASE WHEN r.return_date IS NULL THEN 'active' ELSE 'returned' END as status,\n            CONCAT('Store ', i.store_id) as store\n        FROM rental r\n        JOIN inventory i ON r.inventory_id = i.inventory_id\n        JOIN film f ON i.film_id = f.film_id\n        WHERE r.customer_id = %s\n    "

def overdueSqlBase : String :=
  "\n        SELECT\n            r.rental_id,\n            CONCAT(c.first_name, ' ', c.last_name) as customer_name,\n            c.email as customer_email,\n            f.title as film_title,\n            r.rental_date,\n            DATEDIFF(CURDATE(), r.rental_date) - f.rental_duration as days_overdue,\n            CONCAT('Store ', i.store_id) as store\n        FROM rental r\n        JOIN customer c ON r.customer_id = c.customer_id\n        JOIN inventory i ON r.inventory_id = i.inventory_id\n        JOIN film f ON i.film_id = f.film_id\n        WHERE r.return_date IS NULL\n        AND DATEDIFF(CURDATE(), r.rental_date) > f.rental_duration\n    "

def popularFilmsSqlBase : String :=
  "\n        SELECT\n            f.title,\n            c.name as category,\n            COUNT(r.rental_id) as rental_count,\n            COALESCE(SUM(p.amount), 0) as total_revenue\n        FROM film f\n        JOIN film_category fc ON f.film_id = fc.film_id\n        JOIN category c ON fc.category_id = c.category_id\n        JOIN inventory i ON f.film_id = i.film_id\n        JOIN rental r ON i.inventory_id = r.inventory_id\n        LEFT JOIN payment p ON r.rental_id = p.rental_id\n        WHERE 1=1\n    "

def revenueStoreSqlBase : String :=
  "\n            SELECT\n                CONCAT('Store ', s.store_id) as store,\n                SUM(p.amount) as total_revenue,\n                COUNT(DISTINCT r.rental_id) as rental_count\n            FROM payment p\n            JOIN rental r ON p.rental_id = r.rental_id\n            JOIN inventory i ON r.inventory_id = i.inventory_id\n            JOIN store s ON i.store_id = s.store_id\n        "

def revenueCategorySqlBase : String :=
  "\n            SELECT\n                c.name as category,\n                SUM(p.amount) as total_revenue,\n                COUNT(DISTINCT r.rental_id) as rental_count\n            FROM payment p\n            JOIN rental r ON p.rental_id = r.rental_id\n            JOIN inventory i ON r.inventory_id = i.inventory_id\n            JOIN film f ON i.film_id = f.film_id\n            JOIN film_category fc ON f.film_id = fc.film_id\n            JOIN category c ON fc.category_id = c.category_id\n        "

def revenueMonthSqlBase : String :=
  "\n            SELECT\n                DATE_FORMAT(p.payment_date, '%Y-%m') as month,\n                SUM(p.amount) as total_revenue,\n                COUNT(DISTINCT r.rental_id) as rental_count\n            FROM payment p\n            JOIN rental r ON p.rental_id = r.rental_id\n            JOIN inventory i ON r.inventory_id = i.inventory_id\n        "

def revenueStaffSqlBase : String :=
  "\n            SELECT\n                CONCAT(st.first_name, ' ', st.last_name) as staff,\n                SUM(p.amount) as total_revenue,\n                COUNT(DISTINCT r.rental_id) as rental_count\n            FROM payment p\n            JOIN staff st ON p.staff_id = st.staff_id\n            JOIN rental r ON p.rental_id = r.rental_id\n            JOIN inventory i ON r.inventory_id = i.inventory_id\n        "

def storeStatsSqlBase : String :=
  "\n        SELECT\n            s.store_id,\n            CONCAT(st.first_name, ' ', st.last_name) as manager,\n            CONCAT(a.address, ', ', ci.city, ', ', co.country) as address,\n            (SELECT COUNT(*) FROM customer c WHERE c.store_id = s.store_id) as total_customers,\n            (SELECT COUNT(*) FROM customer c WHERE c.store_id = s.store_id AND c.active = 1) as active_customers,\n            (SELECT COUNT(*) FROM inventory i WHERE i.store_id = s.store_id) as total_inventory,\n            (SELECT COUNT(*) FROM rental r\n             JOIN inventory i ON r.inventory_id = i.inventory_id\n             WHERE i.store_id = s.store_id) as total_rentals,\n            (SELECT COALESCE(SUM(p.amount), 0) FROM payment p\n             JOIN staff st2 ON p.staff_id = st2.staff_id\n             WHERE st2.store_id = s.store_id) as total_revenue\n        FROM store s\n        JOIN staff st ON s.manager_staff_id = st.staff_id\n        JOIN address a ON s.address_id = a.address_id\n        JOIN city ci ON a.city_id = ci.city_id\n        JOIN country co ON ci.country_id = co.country_id\n    "

def topCustomersSqlBase : String :=
  "\n        SELECT\n            c.customer_id,\n            CONCAT(c.first_name, ' ', c.last_name) as name,\n            c.email,\n            CONCAT('Store ', c.store_id) as store,\n            COUNT(DISTINCT r.rental_id) as rental_count,\n            COALESCE(SUM(p.amount), 0) as total_spent\n        FROM customer c\n        LEFT JOIN rental r ON c.customer_id = r.customer_id\n        LEFT JOIN payment p ON r.rental_id = p.rental_id\n        WHERE 1=1\n    "

def segmentsSql : String :=
  "\n        SELECT\n            c.customer_id,\n            COUNT(r.rental_id) as rental_count,\n            COALESCE(SUM(p.amount), 0) as total_spent\n        FROM customer c\n        LEFT JOIN rental r ON c.customer_id = r.customer_id\n        LEFT JOIN payment p ON r.rental_id = p.rental_id\n        WHERE c.active = 1\n        GROUP BY c.customer_id\n    "

def activityActiveSql (interval : String) : String :=
  "\n        SELECT COUNT(DISTINCT r.customer_id) as count\n        FROM rental r\n        WHERE r.rental_date >= DATE_SUB(CURDATE(), INTERVAL " ++ interval ++ ")\n    "

def activityNewSql (interval : String) : String :=
  "\n        SELECT COUNT(*) as count\n        FROM customer\n        WHERE create_date >= DATE_SUB(CURDATE(), INTERVAL " ++ interval ++ ")\n    "

def activityDormantSql (interval : String) : String :=
  "\n        SELECT COUNT(*) as count\n        FROM customer c\n        WHERE c.active = 1\n        AND c.customer_id NOT IN (\n            SELECT DISTINCT r.customer_id\n            FROM rental r\n            WHERE r.rental_date >= DATE_SUB(CURDATE(), INTERVAL " ++ interval ++ ")\n        )\n    "

def inventoryTurnoverSqlBase : String :=
  "\n        SELECT\n            f.title,\n            c.name as category,\n            COUNT(DISTINCT i.inventory_id) as inventory_count,\n            COUNT(r.rental_id) as rental_count,\n            ROUND(COUNT(r.rental_id) / COUNT(DISTINCT i.inventory_id), 2) as turnover_rate\n        FROM film f\n        JOIN film_category fc ON f.film_id = fc.film_id\n        JOIN category c ON fc.category_id = c.category_id\n        JOIN inventory i ON f.film_id = i.film_id\n        LEFT JOIN rental r ON i.inventory_id = r.inventory_id\n        WHERE 1=1\n    "

def categoryPerformanceSqlBase : String :=
  "\n        SELECT\n            c.name as category,\n            COUNT(DISTINCT f.film_id) as film_count,\n            COUNT(r.rental_id) as rental_count,\n            COALESCE(SUM(p.amount), 0) as total_revenue,\n            ROUND(COUNT(r.rental_id) / COUNT(DISTINCT f.film_id), 2) as avg_rentals_per_film\n        FROM category c\n        JOIN film_category fc ON c.category_id = fc.category_id\n        JOIN film f ON fc.film_id = f.film_id\n        JOIN inventory i ON f.film_id = i.film_id\n        LEFT JOIN rental r ON i.inventory_id = r.inventory_id\n        LEFT JOIN payment p ON r.rental_id = p.rental_id\n        WHERE 1=1\n    "

def underperformingSqlBase : String :=
  "\n        SELECT\n            f.title,\n            c.name as category,\n            f.rental_rate,\n            MAX(r.rental_date) as last_rental_date,\n            DATEDIFF(CURDATE(), MAX(r.rental_date)) as days_since_last_rental,\n            COUNT(DISTINCT i.inventory_id) as inventory_count\n        FROM film f\n        JOIN film_category fc ON f.film_id = fc.film_id\n        JOIN category c ON fc.category_id = c.category_id\n        JOIN inventory i ON f.film_id = i.film_id\n        LEFT JOIN rental r ON i.inventory_id = r.inventory_id\n        WHERE 1=1\n    "

def underperformingSuffix : String :=
  "\n        GROUP BY f.film_id, f.title, c.name, f.rental_rate\n        HAVING MAX(r.rental_date) IS NULL\n           OR DATEDIFF(CURDATE(), MAX(r.rental_date)) >= %s\n        ORDER BY days_since_last_rental DESC\n        LIMIT 50\n    "

def listCategoriesSql : String := "SELECT name FROM category ORDER BY name"

def availFilmLookupSql : String := "SELECT title FROM film WHERE title LIKE %s LIMIT 1"

def rentalsCountSql : String := "SELECT COUNT(*) as count FROM rental WHERE customer_id = %s"

def activityTotalSql : String := "SELECT COUNT(*) as count FROM customer WHERE active = 1"

/-- `sql += frag; params.append(p)` guarded by a condition. -/
def addClause (cond : Bool) (frag : String) (p : PyVal) (acc : String × List PyVal) :
    String × List PyVal :=
  if cond then (acc.1 ++ frag, acc.2 ++ [p]) else acc

/-- `sql += frag` guarded by a condition (no parameter appended). -/
def addFrag (cond : Bool) (frag : String) (acc : String × List PyVal) :
    String × List PyVal :=
  if cond then (acc.1 ++ frag, acc.2) else acc

/-- Python truthiness of a validated optional string (`if rating:`). -/
def truthyOptStr : Option String → Bool
  | none => false
  | some s => !s.data.isEmpty

/-- Python truthiness of a validated optional store id (`if store_id:`). -/
def optTruthy : Option PyVal → Bool
  | none => false
  | some v => truthy v

/-- Query construction of `search_films` (lines 171-206), applied to the
values in scope after `validate_rating` / `validate_limit` ran. -/
def searchFilmsBuild (title category : PyVal) (rating : Option String)
    (actor_name release_year : PyVal) (limit : Int) : String × List PyVal :=
  let acc := (searchFilmsSqlBase, ([] : List PyVal))
  let acc := addClause (truthy title) " AND f.title LIKE %s"
    (.str ("%" ++ pyStr title ++ "%")) acc
  let acc := addClause (truthy category) " AND c.name = %s" category acc
  let acc := addClause (truthyOptStr rating) " AND f.rating = %s"
    (.str (rating.getD "")) acc
  let acc := addClause (truthy actor_name)
    " AND CONCAT(a.first_name, ' ', a.last_name) LIKE %s"
    (.str ("%" ++ pyStr actor_name ++ "%")) acc
  let acc := addClause (truthy release_year) " AND f.release_year = %s" release_year acc
  (acc.1 ++ " ORDER BY f.title LIMIT %s", acc.2 ++ [.int limit])

/-- A conditionally appended clause, as the spec describes the builder. -/
def optFrag (b : Bool) (frag : String) : String := if b then frag else ""

def countTrue (bs : List Bool) : Nat := (bs.filter (fun b => b)).length

/-- Spec-side shape of the `search_films` SQL: a fixed base plus one fixed
fragment per supplied argument, in signature order; the text depends only
on which arguments are present, never on their values. -/
def searchFilmsSqlShape (bt bc br ba byr : Bool) : String :=
  searchFilmsSqlBase
    ++ optFrag bt " AND f.title LIKE %s"
    ++ optFrag bc " AND c.name = %s"
    ++ optFrag br " AND f.rating = %s"
    ++ optFrag ba " AND CONCAT(a.first_name, ' ', a.last_name) LIKE %s"
    ++ optFrag byr " AND f.release_year = %s"
    ++ " ORDER BY f.title LIMIT %s"

lemma searchFilms_shape (title category : PyVal) (rating : Option String)
    (actor_name release_year : PyVal) (limit : Int) :
    (searchFilmsBuild title category rating actor_name release_year limit).1 =
      searchFilmsSqlShape (truthy title) (truthy category) (truthyOptStr rating)
        (truthy actor_name) (truthy release_year) ∧
    (searchFilmsBuild title category rating actor_name release_year limit).2.length =
      countTrue [truthy title, truthy category, truthyOptStr rating,
        truthy actor_name, truthy release_year] + 1 := by
  cases h1 : truthy title <;> cases h2 : truthy category <;>
    cases h3 : truthyOptStr rating <;> cases h4 : truthy actor_name <;>
    cases h5 : truthy release_year <;>
    simp [searchFilmsBuild, searchFilmsSqlShape, addClause, optFrag, countTrue,
      h1, h2, h3, h4, h5]

lemma searchFilms_shape_count (bt bc br ba byr : Bool) :
    countPlaceholders (searchFilmsSqlShape bt bc br ba byr) =
      countTrue [bt, bc, br, ba, byr] + 1 := by
  cases bt <;> cases bc <;> cases br <;> cases ba <;> cases byr <;> decide

/-- Query construction of the store-availability query in
`check_film_availability` (lines 301-319). -/
def availBuild (exact_title : PyVal) (store_id : Option PyVal) : String × List PyVal :=
  let acc := (availStoresSqlBase, [exact_title])
  let acc := addClause (optTruthy store_id) " AND s.store_id = %s" (store_id.getD .null) acc
  (acc.1 ++ " GROUP BY s.store_id ORDER BY s.store_id", acc.2)

def availSqlShape (bs : Bool) : String :=
  availStoresSqlBase ++ optFrag bs " AND s.store_id = %s"
    ++ " GROUP BY s.store_id ORDER BY s.store_id"

lemma avail_shape (exact_title : PyVal) (store_id : Option PyVal) :
    (availBuild exact_title store_id).1 = availSqlShape (optTruthy store_id) ∧
    (availBuild exact_title store_id).2.length =
      countTrue [optTruthy store_id] + 1 := by
  cases h : optTruthy store_id <;>
    simp [availBuild, availSqlShape, addClause, optFrag, countTrue, h]

lemma avail_shape_count (bs : Bool) :
    countPlaceholders (availSqlShape bs) = countTrue [bs] + 1 := by
  cases bs <;> decide

/-- Query construction of `search_customers` (lines 387-413). -/
def searchCustomersBuild (name email : PyVal) (store_id : Option PyVal)
    (active_only : PyVal) (limit : Int) : String × List PyVal :=
  let acc := (searchCustomersSqlBase, ([] : List PyVal))
  let acc := addClause (truthy name) " AND CONCAT(c.first_name, ' ', c.last_name) LIKE %s"
    (.str ("%" ++ pyStr name ++ "%")) acc
  let acc := addClause (truthy email) " AND c.email LIKE %s"
    (.str ("%" ++ pyStr email ++ "%")) acc
  let acc := addClause (optTruthy store_id) " AND c.store_id = %s" (store_id.getD .null) acc
  let acc := addFrag (truthy active_only) " AND c.active = 1" acc
  (acc.1 ++ " ORDER BY c.last_name, c.first_name LIMIT %s", acc.2 ++ [.int limit])

def searchCustomersSqlShape (bn be bs ba : Bool) : String :=
  searchCustomersSqlBase
    ++ optFrag bn " AND CONCAT(c.first_name, ' ', c.last_name) LIKE %s"
    ++ optFrag be " AND c.email LIKE %s"
    ++ optFrag bs " AND c.store_id = %s"
    ++ optFrag ba " AND c.active = 1"
    ++ " ORDER BY c.last_name, c.first_name LIMIT %s"

lemma searchCustomers_shape (name email : PyVal) (store_id : Option PyVal)
    (active_only : PyVal) (limit : Int) :
    (searchCustomersBuild name email store_id active_only limit).1 =
      searchCustomersSqlShape (truthy name) (truthy email) (optTruthy store_id)
        (truthy active_only) ∧
    (searchCustomersBuild name email store_id active_only limit).2.length =
      countTrue [truthy name, truthy email, optTruthy store_id] + 1 := by
  cases h1 : truthy name <;> cases h2 : truthy email <;>
    cases h3 : optTruthy store_id <;> cases h4 : truthy active_only <;>
    simp [searchCustomersBuild, searchCustomersSqlShape, addClause, addFrag,
      optFrag, countTrue, h1, h2, h3, h4]

lemma searchCustomers_shape_count (bn be bs ba : Bool) :
    countPlaceholders (searchCustomersSqlShape bn be bs ba) =
      countTrue [bn, be, bs] + 1 := by
  cases bn <;> cases be <;> cases bs <;> cases ba <;> decide

/-- Query construction of the first query of `get_customer_details`
(lines 423-448): `if customer_id: ... elif email: ...`. -/
def customerDetailsBuild (customer_id email : PyVal) : String × List PyVal :=
  let acc := (customerDetailsSqlBase, ([] : List PyVal))
  let acc :=
    if truthy customer_id then (acc.1 ++ " AND c.customer_id = %s", acc.2 ++ [customer_id])
    else if truthy email then
      (acc.1 ++ " AND c.email LIKE %s", acc.2 ++ [.str ("%" ++ pyStr email ++ "%")])
    else acc
  (acc.1 ++ " LIMIT 1", acc.2)

def customerDetailsSqlShape (bc be : Bool) : String :=
  customerDetailsSqlBase
    ++ (if bc then " AND c.customer_id = %s"
        else if be then " AND c.email LIKE %s" else "")
    ++ " LIMIT 1"

lemma customerDetails_shape (customer_id email : PyVal) :
    (customerDetailsBuild customer_id email).1 =
      customerDetailsSqlShape (truthy customer_id) (truthy email) ∧
    (customerDetailsBuild customer_id email).2.length =
      (if truthy customer_id then 1 else if truthy email then 1 else 0) := by
  cases h1 : truthy customer_id <;> cases h2 : truthy email <;>
    simp [customerDetailsBuild, customerDetailsSqlShape, h1, h2]

lemma customerDetails_shape_count (bc be : Bool) :
    countPlaceholders (customerDetailsSqlShape bc be) =
      (if bc then 1 else if be then 1 else 0) := by
  cases bc <;> cases be <;> decide

/-- Query construction of the rental-history query of `get_customer_rentals`
(lines 501-522): `if status == "active": ... elif status == "returned": ...`. -/
def customerRentalsBuild (customer_id : PyVal) (status : String) (limit : Int) :
    String × List PyVal :=
  let acc := (customerRentalsSqlBase, [customer_id])
  let acc :=
    if status = "active" then (acc.1 ++ " AND r.return_date IS NULL", acc.2)
    else if status = "returned" then (acc.1 ++ " AND r.return_date IS NOT NULL", acc.2)
    else acc
  (acc.1 ++ " ORDER BY r.rental_date DESC LIMIT %s", acc.2 ++ [.int limit])

def customerRentalsSqlShape (status : String) : String :=
  customerRentalsSqlBase
    ++ (if status = "active" then " AND r.return_date IS NULL"
        else if status = "returned" then " AND r.return_date IS NOT NULL" else "")
    ++ " ORDER BY r.rental_date DESC LIMIT %s"

lemma customerRentals_shape (customer_id : PyVal) (status : String) (limit : Int) :
    (customerRentalsBuild customer_id status limit).1 = customerRentalsSqlShape status ∧
    (customerRentalsBuild customer_id status limit).2.length = 2 := by
  by_cases h1 : status = "active" <;> by_cases h2 : status = "returned" <;>
    simp [customerRentalsBuild, customerRentalsSqlShape, h1, h2]

lemma customerRentals_shape_count (status : String) :
    countPlaceholders (customerRentalsSqlShape status) = 2 := by
  by_cases h1 : status = "active" <;> by_cases h2 : status = "returned" <;>
    simp only [customerRentalsSqlShape, h1, h2, if_true, if_false] <;> decide

/-- Query construction of `get_overdue_rentals` (lines 547-574).  The
comparison `days_overdue > 0` can raise on a non-numeric argument. -/
def overdueBuild (store_id : Option PyVal) (days_overdue : PyVal) (limit : Int) :
    Except PyExc (String × List PyVal) := do
  let acc := (overdueSqlBase, ([] : List PyVal))
  let acc := addClause (optTruthy store_id) " AND i.store_id = %s" (store_id.getD .null) acc
  let b ← pyGtInt days_overdue 0
  let acc := addClause b
    " AND DATEDIFF(CURDATE(), r.rental_date) - f.rental_duration >= %s" days_overdue acc
  pure (acc.1 ++ " ORDER BY days_overdue DESC LIMIT %s", acc.2 ++ [.int limit])

def overdueSqlShape (bs bd : Bool) : String :=
  overdueSqlBase
    ++ optFrag bs " AND i.store_id = %s"
    ++ optFrag bd " AND DATEDIFF(CURDATE(), r.rental_date) - f.rental_duration >= %s"
    ++ " ORDER BY days_overdue DESC LIMIT %s"

lemma overdue_shape (store_id : Option PyVal) (days_overdue : PyVal) (limit : Int)
    (sql : String) (ps : List PyVal)
    (h : overdueBuild store_id days_overdue limit = .ok (sql, ps)) :
    ∃ bd, sql = overdueSqlShape (optTruthy store_id) bd ∧
      ps.length = countTrue [optTruthy store_id, bd] + 1 := by
  cases hq : pyCmpQ days_overdue with
  | error e =>
      exfalso
      simp [overdueBuild, pyGtInt, hq, Except.bind] at h
  | ok q =>
      refine ⟨decide ((0 : ℚ) < q), ?_⟩
      cases h1 : optTruthy store_id <;> cases h2 : decide ((0 : ℚ) < q) <;>
        simp [overdueBuild, pyGtInt, hq, Except.bind, addClause, h1, h2,
          overdueSqlShape, optFrag, countTrue] at h ⊢ <;>
        simp [← h.1, ← h.2]

lemma overdue_shape_count (bs bd : Bool) :
    countPlaceholders (overdueSqlShape bs bd) = countTrue [bs, bd] + 1 := by
  cases bs <;> cases bd <;> decide

/-- Query construction of `get_popular_films` (lines 595-625). -/
def popularFilmsBuild (period : String) (category : PyVal) (store_id : Option PyVal)
    (limit : Int) : String × List PyVal :=
  let acc := (popularFilmsSqlBase, ([] : List PyVal))
  let acc :=
    if period = "last_month" then
      (acc.1 ++ " AND r.rental_date >= DATE_SUB(CURDATE(), INTERVAL 1 MONTH)", acc.2)
    else if period = "last_week" then
      (acc.1 ++ " AND r.rental_date >= DATE_SUB(CURDATE(), INTERVAL 1 WEEK)", acc.2)
    else acc
  let acc := addClause (truthy category) " AND c.name = %s" category acc
  let acc := addClause (optTruthy store_id) " AND i.store_id = %s" (store_id.getD .null) acc
  (acc.1 ++ " GROUP BY f.film_id, f.title, c.name ORDER BY rental_count DESC LIMIT %s",
    acc.2 ++ [.int limit])

def popularFilmsSqlShape (period : String) (bc bs : Bool) : String :=
  popularFilmsSqlBase
    ++ (if period = "last_month" then
          " AND r.rental_date >= DATE_SUB(CURDATE(), INTERVAL 1 MONTH)"
        else if period = "last_week" then
          " AND r.rental_date >= DATE_SUB(CURDATE(), INTERVAL 1 WEEK)" else "")
    ++ optFrag bc " AND c.name = %s"
    ++ optFrag bs " AND i.store_id = %s"
    ++ " GROUP BY f.film_id, f.title, c.name ORDER BY rental_count DESC LIMIT %s"

lemma popularFilms_shape (period : String) (category : PyVal) (store_id : Option PyVal)
    (limit : Int) :
    (popularFilmsBuild period category store_id limit).1 =
      popularFilmsSqlShape period (truthy category) (optTruthy store_id) ∧
    (popularFilmsBuild period category store_id limit).2.length =
      countTrue [truthy category, optTruthy store_id] + 1 := by
  by_cases h1 : period = "last_month" <;> by_cases h2 : period = "last_week" <;>
    cases h3 : truthy category <;> cases h4 : optTruthy store_id <;>
    simp [popularFilmsBuild, popularFilmsSqlShape, addClause, optFrag, countTrue,
      h1, h2, h3, h4]

lemma popularFilms_shape_count (period : String) (bc bs : Bool) :
    countPlaceholders (popularFilmsSqlShape period bc bs) =
      countTrue [bc, bs] + 1 := by
  by_cases h1 : period = "last_month" <;> by_cases h2 : period = "last_week" <;>
    cases bc <;> cases bs <;>
    simp only [popularFilmsSqlShape, optFrag, h1, h2, if_true, if_false] <;> decide

/-- Query construction of `get_revenue_summary` (lines 646-713): one of four
fixed bases selected by the validated `group_by`, an optional store filter,
and a fixed grouping suffix. -/
def revenueSummaryBuild (group_by : String) (store_id : Option PyVal) :
    String × List PyVal :=
  if group_by = "store" then
    let acc := (revenueStoreSqlBase, ([] : List PyVal))
    let acc := addClause (optTruthy store_id) " WHERE s.store_id = %s" (store_id.getD .null) acc
    (acc.1 ++ " GROUP BY s.store_id ORDER BY s.store_id", acc.2)
  else if group_by = "category" then
    let acc := (revenueCategorySqlBase, ([] : List PyVal))
    let acc := addClause (optTruthy store_id) " WHERE i.store_id = %s" (store_id.getD .null) acc
    (acc.1 ++ " GROUP BY c.category_id, c.name ORDER BY total_revenue DESC", acc.2)
  else if group_by = "month" then
    let acc := (revenueMonthSqlBase, ([] : List PyVal))
    let acc := addClause (optTruthy store_id) " WHERE i.store_id = %s" (store_id.getD .null) acc
    (acc.1 ++ " GROUP BY DATE_FORMAT(p.payment_date, '%Y-%m') ORDER BY month", acc.2)
  else
    let acc := (revenueStaffSqlBase, ([] : List PyVal))
    let acc := addClause (optTruthy store_id) " WHERE i.store_id = %s" (store_id.getD .null) acc
    (acc.1 ++ " GROUP BY st.staff_id ORDER BY total_revenue DESC", acc.2)

def revenueSummarySqlShape (group_by : String) (bs : Bool) : String :=
  if group_by = "store" then
    revenueStoreSqlBase ++ optFrag bs " WHERE s.store_id = %s"
      ++ " GROUP BY s.store_id ORDER BY s.store_id"
  else if group_by = "category" then
    revenueCategorySqlBase ++ optFrag bs " WHERE i.store_id = %s"
      ++ " GROUP BY c.category_id, c.name ORDER BY total_revenue DESC"
  else if group_by = "month" then
    revenueMonthSqlBase ++ optFrag bs " WHERE i.store_id = %s"
      ++ " GROUP BY DATE_FORMAT(p.payment_date, '%Y-%m') ORDER BY month"
  else
    revenueStaffSqlBase ++ optFrag bs " WHERE i.store_id = %s"
      ++ " GROUP BY st.staff_id ORDER BY total_revenue DESC"

lemma revenueSummary_shape (group_by : String) (store_id : Option PyVal) :
    (revenueSummaryBuild group_by store_id).1 =
      revenueSummarySqlShape group_by (optTruthy store_id) ∧
    (revenueSummaryBuild group_by store_id).2.length =
      countTrue [optTruthy store_id] := by
  by_cases h1 : group_by = "store" <;> by_cases h2 : group_by = "category" <;>
    by_cases h3 : group_by = "month" <;> cases h4 : optTruthy store_id <;>
    simp [revenueSummaryBuild, revenueSummarySqlShape, addClause, optFrag, countTrue,
      h1, h2, h3, h4]

lemma revenueSummary_shape_count (group_by : String) (bs : Bool) :
    countPlaceholders (revenueSummarySqlShape group_by bs) = countTrue [bs] := by
  by_cases h1 : group_by = "store" <;> by_cases h2 : group_by = "category" <;>
    by_cases h3 : group_by = "month" <;> cases bs <;>
    simp only [revenueSummarySqlShape, optFrag, h1, h2, h3, if_true, if_false] <;> decide

/-- Query construction of `get_store_stats` (lines 733-759). -/
def storeStatsBuild (store_id : Option PyVal) : String × List PyVal :=
  let acc := (storeStatsSqlBase, ([] : List PyVal))
  let acc := addClause (optTruthy store_id) " WHERE s.store_id = %s" (store_id.getD .null) acc
  (acc.1 ++ " ORDER BY s.store_id", acc.2)

def storeStatsSqlShape (bs : Bool) : String :=
  storeStatsSqlBase ++ optFrag bs " WHERE s.store_id = %s" ++ " ORDER BY s.store_id"

lemma storeStats_shape (store_id : Option PyVal) :
    (storeStatsBuild store_id).1 = storeStatsSqlShape (optTruthy store_id) ∧
    (storeStatsBuild store_id).2.length = countTrue [optTruthy store_id] := by
  cases h : optTruthy store_id <;>
    simp [storeStatsBuild, storeStatsSqlShape, addClause, optFrag, countTrue, h]

lemma storeStats_shape_count (bs : Bool) :
    countPlaceholders (storeStatsSqlShape bs) = countTrue [bs] := by
  cases bs <;> decide

/-- Query construction of `get_top_customers` (lines 793-819).  The `ORDER BY`
column is one of two fixed identifiers selected by the validated metric. -/
def topCustomersBuild (metric period : String) (limit : Int) : String × List PyVal :=
  let order_by := if metric = "spending" then "total_spent" else "rental_count"
  let acc := (topCustomersSqlBase, ([] : List PyVal))
  let acc :=
    if period = "last_month" then
      (acc.1 ++ " AND r.rental_date >= DATE_SUB(CURDATE(), INTERVAL 1 MONTH)", acc.2)
    else if period = "last_week" then
      (acc.1 ++ " AND r.rental_date >= DATE_SUB(CURDATE(), INTERVAL 1 WEEK)", acc.2)
    else acc
  (acc.1 ++ " GROUP BY c.customer_id ORDER BY " ++ order_by ++ " DESC LIMIT %s",
    acc.2 ++ [.int limit])

lemma topCustomers_count (metric period : String) (limit : Int) :
    countPlaceholders (topCustomersBuild metric period limit).1 = 1 ∧
    (topCustomersBuild metric period limit).2.length = 1 := by
  by_cases h1 : metric = "spending" <;> by_cases h2 : period = "last_month" <;>
    by_cases h3 : period = "last_week" <;>
    simp only [topCustomersBuild, h1, h2, h3, if_true, if_false] <;>
    exact ⟨by decide, by simp⟩

/-- Query construction of `get_inventory_turnover` (lines 960-984).  The row
bound is the literal `LIMIT 50`, not a placeholder. -/
def inventoryTurnoverBuild (store_id : Option PyVal) (category : PyVal) :
    String × List PyVal :=
  let acc := (inventoryTurnoverSqlBase, ([] : List PyVal))
  let acc := addClause (optTruthy store_id) " AND i.store_id = %s" (store_id.getD .null) acc
  let acc := addClause (truthy category) " AND c.name = %s" category acc
  (acc.1 ++ " GROUP BY f.film_id, f.title, c.name ORDER BY turnover_rate DESC LIMIT 50",
    acc.2)

def inventoryTurnoverSqlShape (bs bc : Bool) : String :=
  inventoryTurnoverSqlBase
    ++ optFrag bs " AND i.store_id = %s"
    ++ optFrag bc " AND c.name = %s"
    ++ " GROUP BY f.film_id, f.title, c.name ORDER BY turnover_rate DESC LIMIT 50"

lemma inventoryTurnover_shape (store_id : Option PyVal) (category : PyVal) :
    (inventoryTurnoverBuild store_id category).1 =
      inventoryTurnoverSqlShape (optTruthy store_id) (truthy category) ∧
    (inventoryTurnoverBuild store_id category).2.length =
      countTrue [optTruthy store_id, truthy category] := by
  cases h1 : optTruthy store_id <;> cases h2 : truthy category <;>
    simp [inventoryTurnoverBuild, inventoryTurnoverSqlShape, addClause, optFrag,
      countTrue, h1, h2]

lemma inventoryTurnover_shape_count (bs bc : Bool) :
    countPlaceholders (inventoryTurnoverSqlShape bs bc) = countTrue [bs, bc] := by
  cases bs <;> cases bc <;> decide

/-- Query construction of `get_category_performance` (lines 1005-1031). -/
def categoryPerformanceBuild (period : String) (store_id : Option PyVal) :
    String × List PyVal :=
  let acc := (categoryPerformanceSqlBase, ([] : List PyVal))
  let acc :=
    if period = "last_month" then
      (acc.1 ++ " AND (r.rental_date >= DATE_SUB(CURDATE(), INTERVAL 1 MONTH) OR r.rental_date IS NULL)", acc.2)
    else if period = "last_week" then
      (acc.1 ++ " AND (r.rental_date >= DATE_SUB(CURDATE(), INTERVAL 1 WEEK) OR r.rental_date IS NULL)", acc.2)
    else acc
  let acc := addClause (optTruthy store_id) " AND i.store_id = %s" (store_id.getD .null) acc
  (acc.1 ++ " GROUP BY c.category_id, c.name ORDER BY total_revenue DESC", acc.2)

def categoryPerformanceSqlShape (period : String) (bs : Bool) : String :=
  categoryPerformanceSqlBase
    ++ (if period = "last_month" then
          " AND (r.rental_date >= DATE_SUB(CURDATE(), INTERVAL 1 MONTH) OR r.rental_date IS NULL)"
        else if period = "last_week" then
          " AND (r.rental_date >= DATE_SUB(CURDATE(), INTERVAL 1 WEEK) OR r.rental_date IS NULL)"
        else "")
    ++ optFrag bs " AND i.store_id = %s"
    ++ " GROUP BY c.category_id, c.name ORDER BY total_revenue DESC"

lemma categoryPerformance_shape (period : String) (store_id : Option PyVal) :
    (categoryPerformanceBuild period store_id).1 =
      categoryPerformanceSqlShape period (optTruthy store_id) ∧
    (categoryPerformanceBuild period store_id).2.length =
      countTrue [optTruthy store_id] := by
  by_cases h1 : period = "last_month" <;> by_cases h2 : period = "last_week" <;>
    cases h3 : optTruthy store_id <;>
    simp [categoryPerformanceBuild, categoryPerformanceSqlShape, addClause, optFrag,
      countTrue, h1, h2, h3]

lemma categoryPerformance_shape_count (period : String) (bs : Bool) :
    countPlaceholders (categoryPerformanceSqlShape period bs) = countTrue [bs] := by
  by_cases h1 : period = "last_month" <;> by_cases h2 : period = "last_week" <;>
    cases bs <;>
    simp only [categoryPerformanceSqlShape, optFrag, h1, h2, if_true, if_false] <;> decide

/-- Query construction of `get_underperforming_films` (lines 1052-1080): the
`HAVING ... >= %s` lives in the fixed suffix, its parameter appended last. -/
def underperformingBuild (store_id : Option PyVal) (days_not_rented : Int) :
    String × List PyVal :=
  let acc := (underperformingSqlBase, ([] : List PyVal))
  let acc := addClause (optTruthy store_id) " AND i.store_id = %s" (store_id.getD .null) acc
  (acc.1 ++ underperformingSuffix, acc.2 ++ [.int days_not_rented])

def underperformingSqlShape (bs : Bool) : String :=
  underperformingSqlBase ++ optFrag bs " AND i.store_id = %s" ++ underperformingSuffix

lemma underperforming_shape (store_id : Option PyVal) (days_not_rented : Int) :
    (underperformingBuild store_id days_not_rented).1 =
      underperformingSqlShape (optTruthy store_id) ∧
    (underperformingBuild store_id days_not_rented).2.length =
      countTrue [optTruthy store_id] + 1 := by
  cases h : optTruthy store_id <;>
    simp [underperformingBuild, underperformingSqlShape, addClause, optFrag,
      countTrue, h]

lemma underperforming_shape_count (bs : Bool) :
    countPlaceholders (underperformingSqlShape bs) = countTrue [bs] + 1 := by
  cases bs <;> decide

/-- Interval selection in `get_customer_activity` (lines 893-898). -/
def intervalOf (period : String) : String :=
  if period = "last_week" then "1 WEEK"
  else if period = "last_month" then "1 MONTH"
  else "1 YEAR"

lemma activity_sqls_count (period : String) :
    countPlaceholders (activityActiveSql (intervalOf period)) = 0 ∧
    countPlaceholders (activityNewSql (intervalOf period)) = 0 ∧
    countPlaceholders (activityDormantSql (intervalOf period)) = 0 ∧
    countPlaceholders activityTotalSql = 0 := by
  by_cases h1 : period = "last_week" <;> by_cases h2 : period = "last_month" <;>
    simp only [intervalOf, h1, h2, if_true, if_false] <;>
    exact ⟨by decide, by decide, by decide, by decide⟩

lemma fixed_sqls_count :
    countPlaceholders filmDetailsSql = 1 ∧
    countPlaceholders filmCategoriesSql = 1 ∧
    countPlaceholders filmActorsSql = 1 ∧
    countPlaceholders filmInventorySql = 1 ∧
    countPlaceholders listCategoriesSql = 0 ∧
    countPlaceholders availFilmLookupSql = 1 ∧
    countPlaceholders actorLookupSql = 1 ∧
    countPlaceholders actorFilmsSql = 1 ∧
    countPlaceholders customerStatsSql = 1 ∧
    countPlaceholders custLookupSql = 1 ∧
    countPlaceholders rentalsCountSql = 1 ∧
    countPlaceholders segmentsSql = 0 := by
  refine ⟨by decide, by decide, by decide, by decide, by decide, by decide,
    by decide, by decide, by decide, by decide, by decide, by decide⟩

/-- C1: for every intent-mode query-builder call and every combination of
validated arguments, the number of `%s` placeholders in the produced SQL
string equals the length of the produced parameter tuple; and the SQL text
is a fixed shape determined only by which optional arguments are present
(plus the validated closed-set selectors), so caller-supplied parameter
values are never interpolated into it.  One conjunct per query built by
the eighteen operations; fixed statements are paired with the parameter
tuples their call sites pass. -/
theorem c1_intent_builders_placeholder_parity :
    (∀ title category rating actor_name release_year limit,
      countPlaceholders (searchFilmsBuild title category rating actor_name release_year limit).1 =
        (searchFilmsBuild title category rating actor_name release_year limit).2.length ∧
      (searchFilmsBuild title category rating actor_name release_year limit).1 =
        searchFilmsSqlShape (truthy title) (truthy category) (truthyOptStr rating)
          (truthy actor_name) (truthy release_year)) ∧
    (∀ title v : PyVal,
      countPlaceholders filmDetailsSql = [PyVal.str ("%" ++ pyStr title ++ "%")].length ∧
      countPlaceholders filmCategoriesSql = [v].length ∧
      countPlaceholders filmActorsSql = [v].length ∧
      countPlaceholders filmInventorySql = [v].length) ∧
    (countPlaceholders listCategoriesSql = ([] : List PyVal).length) ∧
    (∀ (title exact_title : PyVal) (store_id : Option PyVal),
      countPlaceholders availFilmLookupSql = [PyVal.str ("%" ++ pyStr title ++ "%")].length ∧
      countPlaceholders (availBuild exact_title store_id).1 =
        (availBuild exact_title store_id).2.length ∧
      (availBuild exact_title store_id).1 = availSqlShape (optTruthy store_id)) ∧
    (∀ nm v : PyVal,
      countPlaceholders actorLookupSql = [PyVal.str ("%" ++ pyStr nm ++ "%")].length ∧
      countPlaceholders actorFilmsSql = [v].length) ∧
    (∀ (name email : PyVal) (store_id : Option PyVal) (active_only : PyVal) (limit : Int),
      countPlaceholders (searchCustomersBuild name email store_id active_only limit).1 =
        (searchCustomersBuild name email store_id active_only limit).2.length ∧
      (searchCustomersBuild name email store_id active_only limit).1 =
        searchCustomersSqlShape (truthy name) (truthy email) (optTruthy store_id)
          (truthy active_only)) ∧
    (∀ customer_id email v : PyVal,
      countPlaceholders (customerDetailsBuild customer_id email).1 =
        (customerDetailsBuild customer_id email).2.length ∧
      (customerDetailsBuild customer_id email).1 =
        customerDetailsSqlShape (truthy customer_id) (truthy email) ∧
      countPlaceholders customerStatsSql = [v].length) ∧
    (∀ (customer_id : PyVal) (status : String) (limit : Int),
      countPlaceholders custLookupSql = [customer_id].length ∧
      countPlaceholders (customerRentalsBuild customer_id status limit).1 =
        (customerRentalsBuild customer_id status limit).2.length ∧
      (customerRentalsBuild customer_id status limit).1 = customerRentalsSqlShape status ∧
      countPlaceholders rentalsCountSql = [customer_id].length) ∧
    (∀ (store_id : Option PyVal) (days_overdue : PyVal) (limit : Int) sql ps,
      overdueBuild store_id days_overdue limit = .ok (sql, ps) →
      countPlaceholders sql = ps.length ∧
      ∃ bd, sql = overdueSqlShape (optTruthy store_id) bd) ∧
    (∀ (period : String) (category : PyVal) (store_id : Option PyVal) (limit : Int),
      countPlaceholders (popularFilmsBuild period category store_id limit).1 =
        (popularFilmsBuild period category store_id limit).2.length ∧
      (popularFilmsBuild period category store_id limit).1 =
        popularFilmsSqlShape period (truthy category) (optTruthy store_id)) ∧
    (∀ (group_by : String) (store_id : Option PyVal),
      countPlaceholders (revenueSummaryBuild group_by store_id).1 =
        (revenueSummaryBuild group_by store_id).2.length ∧
      (revenueSummaryBuild group_by store_id).1 =
        revenueSummarySqlShape group_by (optTruthy store_id)) ∧
    (∀ store_id : Option PyVal,
      countPlaceholders (storeStatsBuild store_id).1 =
        (storeStatsBuild store_id).2.length ∧
      (storeStatsBuild store_id).1 = storeStatsSqlShape (optTruthy store_id)) ∧
    (∀ (metric period : String) (limit : Int),
      countPlaceholders (topCustomersBuild metric period limit).1 =
        (topCustomersBuild metric period limit).2.length) ∧
    (countPlaceholders segmentsSql = ([] : List PyVal).length) ∧
    (∀ period : String,
      countPlaceholders (activityActiveSql (intervalOf period)) = ([] : List PyVal).length ∧
      countPlaceholders (activityNewSql (intervalOf period)) = ([] : List PyVal).length ∧
      countPlaceholders (activityDormantSql (intervalOf period)) = ([] : List PyVal).length ∧
      countPlaceholders activityTotalSql = ([] : List PyVal).length) ∧
    (∀ (store_id : Option PyVal) (category : PyVal),
      countPlaceholders (inventoryTurnoverBuild store_id category).1 =
        (inventoryTurnoverBuild store_id category).2.length ∧
      (inventoryTurnoverBuild store_id category).1 =
        inventoryTurnoverSqlShape (optTruthy store_id) (truthy category)) ∧
    (∀ (period : String) (store_id : Option PyVal),
      countPlaceholders (categoryPerformanceBuild period store_id).1 =
        (categoryPerformanceBuild period store_id).2.length ∧
      (categoryPerformanceBuild period store_id).1 =
        categoryPerformanceSqlShape period (optTruthy store_id)) ∧
    (∀ (store_id : Option PyVal) (days_not_rented : Int),
      countPlaceholders (underperformingBuild store_id days_not_rented).1 =
        (underperformingBuild store_id days_not_rented).2.length ∧
      (underperformingBuild store_id days_not_rented).1 =
        underperformingSqlShape (optTruthy store_id)) := by
  refine ⟨?_, ?_, ?_, ?_, ?_, ?_, ?_, ?_, ?_, ?_, ?_, ?_, ?_, ?_, ?_, ?_, ?_, ?_⟩
  · intro t c r a y l
    have h := searchFilms_shape t c r a y l
    exact ⟨by rw [h.1, h.2, searchFilms_shape_count], h.1⟩
  · intro t v
    have h := fixed_sqls_count
    exact ⟨h.1, h.2.1, h.2.2.1, h.2.2.2.1⟩
  · exact fixed_sqls_count.2.2.2.2.1
  · intro t e st
    have h := avail_shape e st
    exact ⟨fixed_sqls_count.2.2.2.2.2.1,
      by rw [h.1, h.2, avail_shape_count], h.1⟩
  · intro nm v
    exact ⟨fixed_sqls_count.2.2.2.2.2.2.1, fixed_sqls_count.2.2.2.2.2.2.2.1⟩
  · intro n e st ao l
    have h := searchCustomers_shape n e st ao l
    exact ⟨by rw [h.1, h.2, searchCustomers_shape_count], h.1⟩
  · intro cid e v
    have h := customerDetails_shape cid e
    exact ⟨by rw [h.1, h.2, customerDetails_shape_count], h.1,
      fixed_sqls_count.2.2.2.2.2.2.2.2.1⟩
  · intro cid st l
    have h := customerRentals_shape cid st l
    exact ⟨fixed_sqls_count.2.2.2.2.2.2.2.2.2.1,
      by rw [h.1, h.2, customerRentals_shape_count], h.1,
      fixed_sqls_count.2.2.2.2.2.2.2.2.2.2.1⟩
  · intro st d l sql ps h
    obtain ⟨bd, h1, h2⟩ := overdue_shape st d l sql ps h
    exact ⟨by rw [h1, h2, overdue_shape_count], bd, h1⟩
  · intro p c st l
    have h := popularFilms_shape p c st l
    exact ⟨by rw [h.1, h.2, popularFilms_shape_count], h.1⟩
  · intro g st
    have h := revenueSummary_shape g st
    exact ⟨by rw [h.1, h.2, revenueSummary_shape_count], h.1⟩
  · intro st
    have h := storeStats_shape st
    exact ⟨by rw [h.1, h.2, storeStats_shape_count], h.1⟩
  · intro m p l
    have h := topCustomers_count m p l
    rw [h.1, h.2]
  · exact fixed_sqls_count.2.2.2.2.2.2.2.2.2.2.2
  · intro p
    exact activity_sqls_count p
  · intro st c
    have h := inventoryTurnover_shape st c
    exact ⟨by rw [h.1, h.2, inventoryTurnover_shape_count], h.1⟩
  · intro p st
    have h := categoryPerformance_shape p st
    exact ⟨by rw [h.1, h.2, categoryPerformance_shape_count], h.1⟩
  · intro st d
    have h := underperforming_shape st d
    exact ⟨by rw [h.1, h.2, underperforming_shape_count], h.1⟩

/-- Witness for C1 at a concrete overdue-rentals call: store 1, seven days
overdue, limit 20 produces three placeholders and three parameters. -/
theorem c1_witness :
    countPlaceholders (overdueSqlShape (optTruthy (some (PyVal.int 1))) true) =
      ([PyVal.int 1, PyVal.int 7, PyVal.int 20] : List PyVal).length :=
  ((c1_intent_builders_placeholder_parity.2.2.2.2.2.2.2.2.1
      (some (PyVal.int 1)) (PyVal.int 7) 20
      (overdueSqlShape (optTruthy (some (PyVal.int 1))) true)
      [PyVal.int 1, PyVal.int 7, PyVal.int 20] rfl).1)

/-- C7: `validate_rating` returns `None` for an absent rating; returns the
(upper-cased) member on a case-insensitive match against
`\x7bG, PG, PG-13, R, NC-17\x7d`; otherwise fails with a `ValueError`
whose message names the invalid value and the permitted value set (every
member occurs verbatim in the message text). -/
theorem c7_validate_rating_total :
    validate_rating PyVal.null = .ok none ∧
    (∀ s : String,
      ((∃ v ∈ VALID_RATINGS, strUpper s = v) →
        validate_rating (.str s) = .ok (some (strUpper s))) ∧
      ((∀ v ∈ VALID_RATINGS, strUpper s ≠ v) →
        validate_rating (.str s) =
          .error (.valueError
            ("無効なレーティング: " ++ s ++ "。有効な値: " ++ ratingsSortedText)))) ∧
    (∀ v ∈ VALID_RATINGS, v.data <:+: ratingsSortedText.data) := by
  refine ⟨rfl, ?_, by decide⟩
  intro s
  constructor
  · rintro ⟨v, hv, hs⟩
    have hm : strUpper s ∈ VALID_RATINGS := hs ▸ hv
    simp [validate_rating, hm]
  · intro h
    have hm : strUpper s ∉ VALID_RATINGS := fun hm => h _ hm rfl
    simp [validate_rating, hm]

/-- Witness for C7: a lower-case member is normalized, a junk value is
rejected with the message naming it and the sorted valid set. -/
theorem c7_witness :
    validate_rating (.str "pg-13") = .ok (some "PG-13") ∧
    validate_rating (.str "X") =
      .error (.valueError "無効なレーティング: X。有効な値: G, NC-17, PG, PG-13, R") := by
  constructor
  · exact ((c7_validate_rating_total.2.1 "pg-13").1 ⟨"PG-13", by decide, by decide⟩)
  · exact ((c7_validate_rating_total.2.1 "X").2 (by decide))

/-- C3 counterexample: the claim says `validate_limit(None, max)` returns the
operation's documented default, 20 for overdue listings (whose `max` is
100); in fact it returns the module-wide `DEFAULT_LIMIT = 10` regardless of
`max` — the overdue default of 20 comes from the dispatcher's argument
fallback, not from `validate_limit`. -/
theorem c3_counterexample :
    validate_limit PyVal.null 100 = .ok 10 ∧ (10 : Int) ≠ 20 :=
  ⟨rfl, by decide⟩

/-- C3 (amended): for integer `L` and `max ≥ 1`, `validate_limit(L, max)`
equals `max(1, min(max, L))`, which lies in `[1, max]`, is `1` for
`L ≤ 0` and `max` for `L ≥ max`, and is monotone in `L`;
`validate_limit(None, max)` always returns `DEFAULT_LIMIT = 10`. -/
theorem c3_validate_limit_clamp :
    (∀ mx : Int, validate_limit PyVal.null mx = .ok DEFAULT_LIMIT) ∧
    (∀ L mx : Int, 1 ≤ mx →
      validate_limit (.int L) mx = .ok (max 1 (min mx L)) ∧
      1 ≤ max 1 (min mx L) ∧ max 1 (min mx L) ≤ mx ∧
      (L ≤ 0 → max 1 (min mx L) = 1) ∧ (mx ≤ L → max 1 (min mx L) = mx)) ∧
    (∀ L1 L2 mx r1 r2, L1 ≤ L2 →
      validate_limit (.int L1) mx = .ok r1 →
      validate_limit (.int L2) mx = .ok r2 → r1 ≤ r2) := by
  refine ⟨fun mx => rfl, ?_, ?_⟩
  · intro L mx h
    refine ⟨rfl, ?_, ?_, ?_, ?_⟩ <;> omega
  · intro L1 L2 mx r1 r2 hL h1 h2
    simp only [validate_limit, pyToInt, bind, Except.bind, pure, Except.pure,
      Except.ok.injEq] at h1 h2
    omega

/-- Witness for C3: clamping at the intent-mode maximum 50. -/
theorem c3_witness :
    validate_limit (PyVal.int 0) 50 = .ok 1 ∧ validate_limit (PyVal.int 999) 50 = .ok 50 := by
  refine ⟨?_, ?_⟩
  · exact (c3_validate_limit_clamp.2.1 0 50 (by decide)).1
  · exact (c3_validate_limit_clamp.2.1 999 50 (by decide)).1

-- =========================================================================
-- SQL Gatekeeper (raw-query mode).  The raw-query server file is not part
-- of src/ (only the intent-mode server is); the Gatekeeper below is
-- modelled from the spec, sections 4.2 and 3 (Allow-Lists).
-- =========================================================================

def ALLOWED_COMMANDS : List String := ["SELECT", "SHOW", "DESCRIBE", "DESC", "EXPLAIN"]

def DANGEROUS_KEYWORDS : List String :=
  ["INSERT", "UPDATE", "DELETE", "DROP", "TRUNCATE", "ALTER", "CREATE", "GRANT", "REVOKE"]

/-- A word character for `\b`-style whole-word matching. -/
def isWordChar (c : Char) : Bool := c.isAlphanum || c == '_'

/-- Does `kw` occur in `s` starting at position `i`, with word boundaries
on both sides? -/
def wordOccursAt (kw s : List Char) (i : Nat) : Bool :=
  (decide ((s.drop i).take kw.length = kw) &&
    (decide (i = 0) || !isWordChar (s.getD (i - 1) ' '))) &&
  (decide (s.length ≤ i + kw.length) || !isWordChar (s.getD (i + kw.length) ' '))

/-- Does `kw` occur anywhere in `s` as a whole word (scan of all positions)? -/
def hasWholeWord (kw s : List Char) : Bool :=
  (List.range (s.length + 1)).any (wordOccursAt kw s)

/-- First whitespace-delimited token of a string (`s.split()[0]`). -/
def firstToken (s : String) : Option String :=
  match s.data.dropWhile Char.isWhitespace with
  | [] => none
  | c :: rest => some ⟨c :: rest.takeWhile (fun x => !x.isWhitespace)⟩

inductive GateVerdict where
  | accepted
  | emptyInput
  | disallowedCommand (cmd : String)
  | dangerousKeyword (kw : String)
deriving DecidableEq, Repr

/-- Modelled from the spec: the raw-query mode's SQL Gatekeeper (spec 4.2),
whose source file is not under src/.  Step 1: reject empty or
whitespace-only input.  Step 2: upper-case the first whitespace-delimited
token; reject unless it is an allowed command, naming it.  Step 3: scan the
upper-cased text for any dangerous keyword as a whole word; reject the
first keyword matched, naming it. -/
def gatekeeper (s : String) : GateVerdict :=
  match firstToken s with
  | none => .emptyInput
  | some t =>
      let tu := strUpper t
      if ALLOWED_COMMANDS.contains tu then
        match DANGEROUS_KEYWORDS.find? (fun kw => hasWholeWord kw.data (strUpper s).data) with
        | some kw => .dangerousKeyword kw
        | none => .accepted
      else .disallowedCommand tu

/-- Declarative whole-word occurrence: `kw` appears as a contiguous segment
whose neighbours (if any) are not word characters. -/
def WholeWordIn (kw s : List Char) : Prop :=
  ∃ pre post, s = pre ++ kw ++ post ∧
    (∀ c, pre.getLast? = some c → isWordChar c = false) ∧
    (∀ c, post.head? = some c → isWordChar c = false)

lemma hasWholeWord_iff (kw s : List Char) :
    hasWholeWord kw s = true ↔ WholeWordIn kw s := by
  constructor
  · intro h
    rw [hasWholeWord, List.any_eq_true] at h
    obtain ⟨i, hmem, hw⟩ := h
    rw [wordOccursAt, Bool.and_eq_true, Bool.and_eq_true] at hw
    obtain ⟨⟨h1, h2⟩, h3⟩ := hw
    have heq : (s.drop i).take kw.length = kw := of_decide_eq_true h1
    have hile : i ≤ s.length := by
      have := List.mem_range.mp hmem
      omega
    have hlen : i + kw.length ≤ s.length := by
      have ht := congrArg List.length heq
      rw [List.length_take, List.length_drop] at ht
      omega
    refine ⟨s.take i, s.drop (i + kw.length), ?_, ?_, ?_⟩
    · have hsplit : s.drop i = kw ++ s.drop (i + kw.length) := by
        conv_lhs => rw [← List.take_append_drop kw.length (s.drop i)]
        rw [heq, List.drop_drop, Nat.add_comm]
      conv_lhs => rw [← List.take_append_drop i s, hsplit]
      rw [List.append_assoc]
    · intro c hc
      have hi0 : i ≠ 0 := by
        intro h0
        rw [h0] at hc
        simp at hc
      have hcv : s[i - 1]? = some c := by
        have hlt : (s.take i).length = i := by
          rw [List.length_take]
          omega
        rw [List.getLast?_eq_getElem?, hlt, List.getElem?_take] at hc
        simpa [show i - 1 < i by omega] using hc
      have hb : isWordChar (s.getD (i - 1) ' ') = false := by
        rcases Bool.or_eq_true _ _ |>.mp h2 with hx | hx
        · exact absurd (of_decide_eq_true hx) hi0
        · simpa using hx
      simp only [List.getD, List.get?_eq_getElem?] at hb
      rwa [hcv] at hb
    · intro c hc
      have hlt : i + kw.length < s.length := by
        by_contra hx
        rw [List.drop_eq_nil_of_le (by omega)] at hc
        simp at hc
      have hcv : s[i + kw.length]? = some c := by
        rw [List.head?_drop] at hc
        exact hc
      have hb : isWordChar (s.getD (i + kw.length) ' ') = false := by
        rcases Bool.or_eq_true _ _ |>.mp h3 with hx | hx
        · exact absurd (of_decide_eq_true hx) (by omega)
        · simpa using hx
      simp only [List.getD, List.get?_eq_getElem?] at hb
      rwa [hcv] at hb
  · rintro ⟨pre, post, rfl, hpre, hpost⟩
    rw [hasWholeWord, List.any_eq_true]
    refine ⟨pre.length, List.mem_range.mpr (by simp; omega), ?_⟩
    rw [wordOccursAt, Bool.and_eq_true, Bool.and_eq_true]
    refine ⟨⟨decide_eq_true ?_, ?_⟩, ?_⟩
    · rw [List.append_assoc, List.drop_left, List.take_left]
    · cases hp : pre with
      | nil => simp [hp]
      | cons p ps =>
          apply Bool.or_eq_true _ _ |>.mpr
          right
          rw [← hp]
          have hne : pre ≠ [] := by simp [hp]
          have hlast : pre.getLast? = some (pre.getLast hne) := List.getLast?_eq_getLast pre hne
          have hidx : (pre ++ kw ++ post)[pre.length - 1]? = some (pre.getLast hne) := by
            rw [List.append_assoc, List.getElem?_append]
            have hlt : pre.length - 1 < pre.length := by
              rw [hp]
              simp
            rw [if_pos hlt, ← List.getLast?_eq_getElem?, hlast]
          simp only [List.getD, List.get?_eq_getElem?]
          rw [hidx]
          simpa using hpre _ hlast
    · cases hq : post with
      | nil =>
          apply Bool.or_eq_true _ _ |>.mpr
          left
          apply decide_eq_true
          simp [hq]
      | cons p ps =>
          apply Bool.or_eq_true _ _ |>.mpr
          right
          rw [← hq]
          have hidx : (pre ++ kw ++ post)[pre.length + kw.length]? = some p := by
            rw [List.append_assoc, ← List.head?_drop, List.drop_append_eq_append_drop]
            simp [hq]
          simp only [List.getD, List.get?_eq_getElem?]
          rw [hidx]
          have := hpost p (by simp [hq])
          simpa using this

/-- C2 (spec-modelled): the Gatekeeper accepts a raw SQL string iff its
first whitespace-delimited token, upper-cased, is an allowed command AND no
dangerous keyword occurs as a whole word anywhere in the upper-cased text;
a rejection names the disallowed command or the matched dangerous keyword. -/
theorem c2_gatekeeper_accepts_iff :
    ∀ s : String,
      (gatekeeper s = .accepted ↔
        (∃ t, firstToken s = some t ∧ strUpper t ∈ ALLOWED_COMMANDS) ∧
        (∀ kw ∈ DANGEROUS_KEYWORDS, ¬ WholeWordIn kw.data (strUpper s).data)) ∧
      (∀ c, gatekeeper s = .disallowedCommand c →
        ∃ t, firstToken s = some t ∧ c = strUpper t ∧ c ∉ ALLOWED_COMMANDS) ∧
      (∀ kw, gatekeeper s = .dangerousKeyword kw →
        kw ∈ DANGEROUS_KEYWORDS ∧ WholeWordIn kw.data (strUpper s).data) := by
  intro s
  unfold gatekeeper
  cases hft : firstToken s with
  | none => simp
  | some t =>
      by_cases hA : ALLOWED_COMMANDS.contains (strUpper t) = true
      · cases hfind : DANGEROUS_KEYWORDS.find?
            (fun kw => hasWholeWord kw.data (strUpper s).data) with
        | some kw =>
            have hmem := List.mem_of_find?_eq_some hfind
            have hww : WholeWordIn kw.data (strUpper s).data :=
              (hasWholeWord_iff _ _).mp (by simpa using List.find?_some hfind)
            simp only [hA, hfind, if_true]
            refine ⟨?_, by simp, ?_⟩
            · constructor
              · intro h
                cases h
              · rintro ⟨-, hall⟩
                exact absurd hww (hall kw hmem)
            · intro kw2 h
              cases h
              exact ⟨hmem, hww⟩
        | none =>
            simp only [hA, hfind, if_true]
            refine ⟨?_, by simp, by simp⟩
            constructor
            · intro _
              refine ⟨⟨t, rfl, List.elem_iff.mp hA⟩, ?_⟩
              intro kw hmem hww
              have hfalse := List.find?_eq_none.mp hfind kw hmem
              rw [(hasWholeWord_iff _ _).mpr hww] at hfalse
              exact absurd rfl hfalse
            · intro _
              trivial
      · simp only [hA, if_false]
        have hA2 := hA
        simp only [Bool.not_eq_true] at hA2
        refine ⟨?_, ?_, by simp⟩
        · constructor
          · intro h
            cases h
          · rintro ⟨⟨t2, ht2, hmem⟩, -⟩
            rw [show t2 = t from by injection ht2 with h2; exact h2.symm] at hmem
            exact absurd (List.elem_iff.mpr hmem) hA
        · intro c h
          cases h
          exact ⟨t, rfl, rfl, fun hmem => absurd (List.elem_iff.mpr hmem) hA⟩

/-- Witness for C2: the canonical smuggled-write example is rejected citing
`DELETE`, and a plain `SELECT` is accepted. -/
theorem c2_witness :
    ("DELETE" ∈ DANGEROUS_KEYWORDS ∧
      WholeWordIn "DELETE".data (strUpper "SELECT * FROM t; DELETE FROM t").data) ∧
    gatekeeper "SELECT 1" = .accepted := by
  constructor
  · exact (c2_gatekeeper_accepts_iff "SELECT * FROM t; DELETE FROM t").2.2 "DELETE" rfl
  · apply ((c2_gatekeeper_accepts_iff "SELECT 1").1).mpr
    constructor
    · exact ⟨"SELECT", rfl, by decide⟩
    · intro kw hmem hww
      have hfw : hasWholeWord kw.data (strUpper "SELECT 1").data = true :=
        (hasWholeWord_iff _ _).mpr hww
      fin_cases hmem <;> revert hfw <;> decide

-- =========================================================================
-- Result shaping: customer segmentation (lines 837-886) and customer
-- activity (lines 889-948)
-- =========================================================================

/-- Python `round(x, 1)` semantics over exact rationals: round to the
nearest integer, ties to even. -/
def roundHalfEven (q : ℚ) : ℤ :=
  let n := q.floor
  let r := q - n
  if r < 1/2 then n
  else if 1/2 < r then n + 1
  else if n % 2 = 0 then n else n + 1

def pyRound1 (q : ℚ) : ℚ := (roundHalfEven (q * 10) : ℚ) / 10

inductive Seg where
  | vip
  | regular
  | occasional
  | inactive
deriving DecidableEq, Repr

/-- The loop body of `get_customer_segments` (lines 860-871) classifying
one fetched row: `rental_count` defaulted by truthiness (`or 0`),
`total_spent` coerced to float when truthy, then the priority-ordered
`if`/`elif` chain. -/
def classifyRow (r : Row) : Except PyExc Seg := do
  let rcRaw ← getKey r "rental_count"
  let rc := if truthy rcRaw then rcRaw else .int 0
  let tsRaw ← getKey r "total_spent"
  let ts ← if truthy tsRaw then pyFloat tsRaw else pure (0 : ℚ)
  let b1 ← pyGeInt rc 20
  if b1 && decide ((100 : ℚ) ≤ ts) then pure .vip
  else
    let b2 ← pyGeInt rc 10
    if b2 || decide ((50 : ℚ) ≤ ts) then pure .regular
    else
      let b3 ← pyGeInt rc 1
      if b3 then pure .occasional else pure .inactive

def bump : Seg → Nat × Nat × Nat × Nat → Nat × Nat × Nat × Nat
  | .vip, (v, g, o, na) => (v + 1, g, o, na)
  | .regular, (v, g, o, na) => (v, g + 1, o, na)
  | .occasional, (v, g, o, na) => (v, g, o + 1, na)
  | .inactive, (v, g, o, na) => (v, g, o, na + 1)

/-- The `for r in results:` loop of `get_customer_segments`, accumulating
the four segment counters. -/
def segLoop : List Row → Nat × Nat × Nat × Nat → Except PyExc (Nat × Nat × Nat × Nat)
  | [], cs => .ok cs
  | r :: rest, cs => do
      let sg ← classifyRow r
      segLoop rest (bump sg cs)

/-- The pure core of the classification, on a well-typed row
(`rental_count` an int, `total_spent` a float): the priority-ordered
conditions of lines 864-871. -/
def segmentOf (rc : Int) (ts : ℚ) : Seg :=
  if 20 ≤ rc ∧ 100 ≤ ts then .vip
  else if 10 ≤ rc ∨ 50 ≤ ts then .regular
  else if 1 ≤ rc then .occasional
  else .inactive

structure SegEntry where
  segment : String
  count : Nat
  percentage : PyVal
  criteria : String

structure SegResult where
  segments : List SegEntry
  total_customers : Nat

/-- `round(count / total * 100, 1) if total > 0 else 0` (line 880). -/
def segPct (count total : Nat) : PyVal :=
  if 0 < total then .float (pyRound1 ((count : ℚ) / (total : ℚ) * 100)) else .int 0

/-- Result shaping of `get_customer_segments` (lines 852-886): classify all
fetched rows, then report the four segments with their shared total. -/
def customerSegmentsShape (rows : List Row) : Except PyExc SegResult := do
  let cs ← segLoop rows (0, 0, 0, 0)
  let total := cs.1 + cs.2.1 + cs.2.2.1 + cs.2.2.2
  pure ⟨[
    ⟨"vip", cs.1, segPct cs.1 total, "レンタル20回以上かつ支払い$100以上"⟩,
    ⟨"regular", cs.2.1, segPct cs.2.1 total, "レンタル10-19回または支払い$50-99"⟩,
    ⟨"occasional", cs.2.2.1, segPct cs.2.2.1 total, "レンタル1-9回"⟩,
    ⟨"inactive", cs.2.2.2, segPct cs.2.2.2 total, "レンタル0回"⟩], total⟩

lemma ebind_ok {α β : Type} {x : Except PyExc α} {f : α → Except PyExc β} {b : β}
    (h : x >>= f = .ok b) : ∃ a, x = .ok a ∧ f a = .ok b := by
  cases x with
  | error e => exact absurd h (by simp [Bind.bind, Except.bind])
  | ok a => exact ⟨a, rfl, by simpa [Bind.bind, Except.bind] using h⟩

lemma bump_sum (sg : Seg) (cs : Nat × Nat × Nat × Nat) :
    (bump sg cs).1 + (bump sg cs).2.1 + (bump sg cs).2.2.1 + (bump sg cs).2.2.2 =
      cs.1 + cs.2.1 + cs.2.2.1 + cs.2.2.2 + 1 := by
  obtain ⟨v, g, o, na⟩ := cs
  cases sg <;> simp [bump] <;> omega

lemma segLoop_sum (rows : List Row) : ∀ cs res, segLoop rows cs = .ok res →
    res.1 + res.2.1 + res.2.2.1 + res.2.2.2 =
      cs.1 + cs.2.1 + cs.2.2.1 + cs.2.2.2 + rows.length := by
  induction rows with
  | nil =>
      intro cs res h
      simp only [segLoop] at h
      cases h
      simp
  | cons r rest ih =>
      intro cs res h
      simp only [segLoop] at h
      obtain ⟨sg, hsg, h2⟩ := ebind_ok h
      have := ih (bump sg cs) res h2
      rw [this, bump_sum]
      simp [List.length_cons]
      omega

@[simp] lemma ebind_ok_eq {α β : Type} (a : α) (f : α → Except PyExc β) :
    ((.ok a : Except PyExc α) >>= f) = f a := rfl

@[simp] lemma epure_bind_eq {α β : Type} (a : α) (f : α → Except PyExc β) :
    ((pure a : Except PyExc α) >>= f) = f a := rfl

lemma classifyRow_typed (rc : Int) (ts : ℚ) :
    classifyRow [("rental_count", .int rc), ("total_spent", .float ts)] =
      .ok (segmentOf rc ts) := by
  have hk1 : getKey [("rental_count", PyVal.int rc), ("total_spent", PyVal.float ts)]
      "rental_count" = .ok (.int rc) := rfl
  have hk2 : getKey [("rental_count", PyVal.int rc), ("total_spent", PyVal.float ts)]
      "total_spent" = .ok (.float ts) := rfl
  have hrc : (if truthy (.int rc) then PyVal.int rc else .int 0) = .int rc := by
    by_cases h : rc = 0 <;> simp [truthy, h]
  have hts : (if truthy (.float ts) then pyFloat (.float ts) else pure (0 : ℚ)) =
      (.ok ts : Except PyExc ℚ) := by
    by_cases h : ts = 0 <;> simp [truthy, pyFloat, h, pure, Except.pure]
  have e1 : (((20 : Int) : ℚ) ≤ (rc : ℚ)) ↔ ((20 : Int) ≤ rc) := Int.cast_le
  have e2 : (((10 : Int) : ℚ) ≤ (rc : ℚ)) ↔ ((10 : Int) ≤ rc) := Int.cast_le
  have e3 : (((1 : Int) : ℚ) ≤ (rc : ℚ)) ↔ ((1 : Int) ≤ rc) := Int.cast_le
  simp only [classifyRow, hk1, hk2, ebind_ok_eq, hrc]
  by_cases htv : truthy (PyVal.float ts)
  · have hpf : pyFloat (PyVal.float ts) = (.ok ts : Except PyExc ℚ) := rfl
    simp only [htv, if_true, hpf, ebind_ok_eq, epure_bind_eq, pyGeInt, pyCmpQ,
      e1, e2, e3]
    by_cases h1 : (20 : Int) ≤ rc <;> by_cases h2 : (100 : ℚ) ≤ ts <;>
      by_cases h3 : (10 : Int) ≤ rc <;> by_cases h4 : (50 : ℚ) ≤ ts <;>
      by_cases h5 : (1 : Int) ≤ rc <;>
      simp [segmentOf, h1, h2, h3, h4, h5, pure, Except.pure]
  · have ht0 : ts = 0 := by
      by_contra hne
      simp [truthy, hne] at htv
    subst ht0
    have c1 : ¬((100 : ℚ) ≤ 0) := by norm_num
    have c2 : ¬((50 : ℚ) ≤ 0) := by norm_num
    simp only [Bool.not_eq_true] at htv
    simp only [htv, Bool.false_eq_true, if_false, epure_bind_eq, ebind_ok_eq,
      pyGeInt, pyCmpQ, e1, e2, e3]
    by_cases h1 : (20 : Int) ≤ rc <;> by_cases h3 : (10 : Int) ≤ rc <;>
      by_cases h5 : (1 : Int) ≤ rc <;>
      simp [segmentOf, h1, h3, h5, c1, c2, pure, Except.pure]

/-- C4: the segment classifier is a total, priority-ordered partition into
exactly four segments (VIP, then Regular, then Occasional, else Inactive),
and for every fetched row list the four reported segment counts sum to the
number of rows, with `total_customers` equal to that sum. -/
theorem c4_segments_partition :
    (∀ (rc : Int) (ts : ℚ),
      classifyRow [("rental_count", .int rc), ("total_spent", .float ts)] =
        .ok (segmentOf rc ts) ∧
      (segmentOf rc ts = .vip ↔ 20 ≤ rc ∧ 100 ≤ ts) ∧
      (segmentOf rc ts = .regular ↔ ¬(20 ≤ rc ∧ 100 ≤ ts) ∧ (10 ≤ rc ∨ 50 ≤ ts)) ∧
      (segmentOf rc ts = .occasional ↔
        ¬(20 ≤ rc ∧ 100 ≤ ts) ∧ ¬(10 ≤ rc ∨ 50 ≤ ts) ∧ 1 ≤ rc) ∧
      (segmentOf rc ts = .inactive ↔
        ¬(20 ≤ rc ∧ 100 ≤ ts) ∧ ¬(10 ≤ rc ∨ 50 ≤ ts) ∧ ¬(1 ≤ rc))) ∧
    (∀ rows res, customerSegmentsShape rows = .ok res →
      (res.segments.map SegEntry.count).sum = rows.length ∧
      res.total_customers = (res.segments.map SegEntry.count).sum) := by
  constructor
  · intro rc ts
    refine ⟨classifyRow_typed rc ts, ?_, ?_, ?_, ?_⟩ <;>
      · unfold segmentOf
        split_ifs with h1 h2 h3 <;> simp_all
  · intro rows res h
    obtain ⟨cs, hcs, h2⟩ := ebind_ok h
    have hs := segLoop_sum rows (0, 0, 0, 0) cs hcs
    have hs2 : cs.1 + cs.2.1 + cs.2.2.1 + cs.2.2.2 = rows.length := by simpa using hs
    simp only [pure, Except.pure, Except.ok.injEq] at h2
    subst h2
    simp
    omega

def segRows0 : List Row :=
  [[("rental_count", .int 25), ("total_spent", .decimal 150 "150.00")],
   [("rental_count", .int 12), ("total_spent", .decimal 30 "30.00")],
   [("rental_count", .int 3), ("total_spent", .decimal 10 "10.00")],
   [("rental_count", .int 0), ("total_spent", .decimal 0 "0.00")]]

def segVip0 : SegEntry := ⟨"vip", 1, segPct 1 4, "レンタル20回以上かつ支払い$100以上"⟩

def segRes0 : SegResult :=
  ⟨[segVip0,
    ⟨"regular", 1, segPct 1 4, "レンタル10-19回または支払い$50-99"⟩,
    ⟨"occasional", 1, segPct 1 4, "レンタル1-9回"⟩,
    ⟨"inactive", 1, segPct 1 4, "レンタル0回"⟩], 4⟩

/-- Witness for C4 on four concrete customers, one per segment. -/
theorem c4_witness :
    (segRes0.segments.map SegEntry.count).sum = segRows0.length ∧
    segRes0.total_customers = (segRes0.segments.map SegEntry.count).sum :=
  c4_segments_partition.2 segRows0 segRes0 rfl

/-- Inner helper `calc_pct` of `get_customer_activity` (lines 937-938):
`round(count / total_count * 100, 1) if total_count > 0 else 0`. -/
def calcPctV (total_count count : PyVal) : Except PyExc PyVal := do
  let b ← pyGtInt total_count 0
  if b then do
    let c ← pyCmpQ count
    let t ← pyCmpQ total_count
    pure (.float (pyRound1 (c / t * 100)))
  else pure (.int 0)

/-- `result[0]["count"] if result else 0` on a fetched count query. -/
def countOf (result : List Row) : Except PyExc PyVal :=
  match result with
  | [] => pure (.int 0)
  | r :: _ => getKey r "count"

/-- `get_customer_activity` after period validation (lines 893-948): four
count queries (`result[0]["count"] if result else 0` each) and the shaped
result sharing one total. -/
def customerActivityRun (period : String) (db : Db) : Except PyExc PyVal := do
  let interval := intervalOf period
  let active_result ← db (activityActiveSql interval) []
  let active_count ← countOf active_result
  let new_result ← db (activityNewSql interval) []
  let new_count ← countOf new_result
  let dormant_result ← db (activityDormantSql interval) []
  let dormant_count ← countOf dormant_result
  let total_result ← db activityTotalSql []
  let total_count ← countOf total_result
  let pa ← calcPctV total_count active_count
  let pn ← calcPctV total_count new_count
  let pd ← calcPctV total_count dormant_count
  pure (.dict [("period", .str period),
    ("activity", .dict [
      ("active", .dict [("count", active_count), ("percentage", pa)]),
      ("new", .dict [("count", new_count), ("percentage", pn)]),
      ("dormant", .dict [("count", dormant_count), ("percentage", pd)])]),
    ("total_active_customers", total_count)])

/-- C8: every derived percentage equals `round(count / total * 100, 1)` when
the shared total is positive and the int `0` when it is zero; the division
branch of `calc_pct` is reached only when the total is strictly positive,
and the three activity percentages share the single total. -/
theorem c8_percentages_guarded :
    (∀ rows res, customerSegmentsShape rows = .ok res →
      ∀ e ∈ res.segments,
        e.percentage =
          if 0 < res.total_customers then
            PyVal.float (pyRound1 ((e.count : ℚ) / (res.total_customers : ℚ) * 100))
          else PyVal.int 0) ∧
    (∀ total count b, pyGtInt total 0 = .ok b →
      (b = true → ∀ c t, pyCmpQ count = .ok c → pyCmpQ total = .ok t →
        (0 : ℚ) < t ∧
        calcPctV total count = .ok (.float (pyRound1 (c / t * 100)))) ∧
      (b = false → calcPctV total count = .ok (.int 0))) ∧
    (∀ period db v, customerActivityRun period db = .ok v →
      ∃ a n d t pa pn pd,
        calcPctV t a = .ok pa ∧ calcPctV t n = .ok pn ∧ calcPctV t d = .ok pd ∧
        v = .dict [("period", .str period),
          ("activity", .dict [
            ("active", .dict [("count", a), ("percentage", pa)]),
            ("new", .dict [("count", n), ("percentage", pn)]),
            ("dormant", .dict [("count", d), ("percentage", pd)])]),
          ("total_active_customers", t)]) := by
  refine ⟨?_, ?_, ?_⟩
  · intro rows res h
    obtain ⟨cs, hcs, h2⟩ := ebind_ok h
    simp only [pure, Except.pure, Except.ok.injEq] at h2
    subst h2
    intro e he
    simp only [List.mem_cons, List.mem_singleton, List.not_mem_nil, or_false] at he
    rcases he with rfl | rfl | rfl | rfl <;> simp [segPct]
  · intro total count b hb
    constructor
    · intro hbt c t hc ht
      subst hbt
      have hbd : decide (((0 : Int) : ℚ) < t) = true := by
        have := hb
        simp only [pyGtInt, ht, ebind_ok_eq, epure_bind_eq, pure, Except.pure,
          Except.ok.injEq] at this
        exact this
      have htpos : (0 : ℚ) < t := by
        have := of_decide_eq_true hbd
        simpa using this
      refine ⟨htpos, ?_⟩
      simp [calcPctV, hb, hc, ht, ebind_ok_eq, epure_bind_eq, pure, Except.pure]
    · intro hbf
      subst hbf
      simp [calcPctV, hb, ebind_ok_eq, epure_bind_eq, pure, Except.pure]
  · intro period db v h
    obtain ⟨ar, h1, h⟩ := ebind_ok h
    obtain ⟨a, h2, h⟩ := ebind_ok h
    obtain ⟨nr, h3, h⟩ := ebind_ok h
    obtain ⟨n, h4, h⟩ := ebind_ok h
    obtain ⟨dr, h5, h⟩ := ebind_ok h
    obtain ⟨d, h6, h⟩ := ebind_ok h
    obtain ⟨tr, h7, h⟩ := ebind_ok h
    obtain ⟨t, h8, h⟩ := ebind_ok h
    obtain ⟨pa, h9, h⟩ := ebind_ok h
    obtain ⟨pn, h10, h⟩ := ebind_ok h
    obtain ⟨pd, h11, h⟩ := ebind_ok h
    simp only [pure, Except.pure, Except.ok.injEq] at h
    exact ⟨a, n, d, t, pa, pn, pd, h9, h10, h11, h.symm⟩

/-- Witness for C8: the VIP entry of the concrete segmentation, and
`calc_pct` on a concrete positive total. -/
theorem c8_witness :
    (segVip0.percentage =
      if 0 < segRes0.total_customers then
        PyVal.float (pyRound1 ((segVip0.count : ℚ) /
          (segRes0.total_customers : ℚ) * 100))
      else PyVal.int 0) ∧
    ((0 : ℚ) < ((2 : Int) : ℚ) ∧
      calcPctV (.int 2) (.int 2) =
        .ok (.float (pyRound1 (((2 : Int) : ℚ) / ((2 : Int) : ℚ) * 100)))) := by
  constructor
  · exact c8_percentages_guarded.1 segRows0 segRes0 rfl segVip0 (by simp [segRes0])
  · exact (c8_percentages_guarded.2.1 (.int 2) (.int 2) true rfl).1 rfl
      ((2 : Int) : ℚ) ((2 : Int) : ℚ) rfl rfl

-- =========================================================================
-- JSON serialization: json.dumps(result, ensure_ascii=False, default=str)
-- =========================================================================

/-- JSON string escaping (the common escapes; other control characters are
not modelled, no claim depends on them). -/
def escapeJsonChar (c : Char) : String :=
  if c = '"' then "\\\"" else if c = '\\' then "\\\\"
  else if c = '\n' then "\\n" else if c = '\t' then "\\t"
  else if c = '\r' then "\\r" else String.singleton c

def escapeJson (s : String) : String := String.join (s.data.map escapeJsonChar)

def quoteJson (s : String) : String := "\"" ++ escapeJson s ++ "\""

mutual

/-- `json.dumps(-, ensure_ascii=False, default=str)`: primitives serialize
as JSON; dates and Decimals fall to `default=str` and serialize as their
`str()` text, quoted. -/
def pyDumps : PyVal → String
  | .null => "null"
  | .str s => quoteJson s
  | .int n => toString n
  | .float q => ratText q
  | .bool b => if b then "true" else "false"
  | .list xs => "[" ++ pyDumpsItems xs ++ "]"
  | .dict kvs => "\x7b" ++ pyDumpsPairs kvs ++ "\x7d"
  | .date s => quoteJson s
  | .decimal _ s => quoteJson s

def pyDumpsItems : List PyVal → String
  | [] => ""
  | [x] => pyDumps x
  | x :: y :: rest => pyDumps x ++ ", " ++ pyDumpsItems (y :: rest)

def pyDumpsPairs : List (String × PyVal) → String
  | [] => ""
  | [(k, v)] => quoteJson k ++ ": " ++ pyDumps v
  | (k, v) :: p :: rest => quoteJson k ++ ": " ++ pyDumps v ++ ", " ++ pyDumpsPairs (p :: rest)

end

-- =========================================================================
-- Operation handlers: one per tool, as dispatched by call_tool
-- (server.py lines 1358-1472), each returning the result value the
-- dispatcher serializes (`none` models a Python `None` result)
-- =========================================================================

abbrev Args := List (String × PyVal)

/-- `float(v) if v else 0.0` (used for aggregate fields). -/
def floatOrZero (v : PyVal) : Except PyExc PyVal :=
  if truthy v then do
    let q ← pyFloat v
    pure (.float q)
  else pure (.float 0)

/-- `search_films` (lines 159-208). -/
def hSearchFilms (a : Args) (db : Db) : Except PyExc (Option PyVal) := do
  let rating ← validate_rating (argGet a "rating" .null)
  let limit ← validate_limit (argGet a "limit" (.int DEFAULT_LIMIT)) MAX_LIMIT
  let bp := searchFilmsBuild (argGet a "title" .null) (argGet a "category" .null)
    rating (argGet a "actor_name" .null) (argGet a "release_year" .null) limit
  let rows ← db bp.1 bp.2
  pure (some (.list (rows.map PyVal.dict)))

/-- `get_film_details` (lines 211-276). -/
def hGetFilmDetails (a : Args) (db : Db) : Except PyExc (Option PyVal) := do
  let title := argGet a "title" (.str "")
  if truthy title then do
    let results ← db filmDetailsSql [.str ("%" ++ pyStr title ++ "%")]
    match results with
    | [] => pure none
    | film :: _ => do
        let ftitle ← getKey film "title"
        let categories ← db filmCategoriesSql [ftitle]
        let catNames ← categories.mapM (fun c => getKey c "name")
        let film := setKey film "categories" (.list catNames)
        let actors ← db filmActorsSql [ftitle]
        let actNames ← actors.mapM (fun x => getKey x "name")
        let film := setKey film "actors" (.list actNames)
        let inventory ← db filmInventorySql [ftitle]
        let film ← match inventory with
          | [] => pure film
          | inv :: _ => do
              let tc ← getKey inv "total_copies"
              let ac ← getKey inv "available_copies"
              pure (setKey (setKey film "total_copies" tc) "available_copies" ac)
        pure (some (.dict film))
  else .error (.valueError "タイトルを指定してください")

/-- `list_categories` (lines 279-283). -/
def hListCategories (_a : Args) (db : Db) : Except PyExc (Option PyVal) := do
  let results ← db listCategoriesSql []
  let names ← results.mapM (fun r => getKey r "name")
  pure (some (.list names))

/-- `check_film_availability` (lines 286-331). -/
def hCheckFilmAvailability (a : Args) (db : Db) : Except PyExc (Option PyVal) := do
  let title := argGet a "title" (.str "")
  if truthy title then do
    let store_id ← validate_store_id (argGet a "store_id" .null)
    let films ← db availFilmLookupSql [.str ("%" ++ pyStr title ++ "%")]
    match films with
    | [] => pure none
    | f :: _ => do
        let exact_title ← getKey f "title"
        let bp := availBuild exact_title store_id
        let availability ← db bp.1 bp.2
        let avs ← availability.mapM (fun x => getKey x "available")
        let overall_available ← pySum avs
        let tots ← availability.mapM (fun x => getKey x "total")
        let overall_total ← pySum tots
        let entries ← availability.mapM (fun x => do
          let st ← getKey x "store"
          let av ← getKey x "available"
          let tt ← getKey x "total"
          pure (PyVal.dict [("store", st), ("available", av), ("total", tt)]))
        pure (some (.dict [("title", exact_title),
          ("availability", .list entries),
          ("overall_available", overall_available),
          ("overall_total", overall_total)]))
  else .error (.valueError "タイトルを指定してください")

/-- `get_actor_filmography` (lines 334-368). -/
def hGetActorFilmography (a : Args) (db : Db) : Except PyExc (Option PyVal) := do
  let actor_name := argGet a "actor_name" (.str "")
  if truthy actor_name then do
    let actors ← db actorLookupSql [.str ("%" ++ pyStr actor_name ++ "%")]
    match actors with
    | [] => pure none
    | actor :: _ => do
        let aid ← getKey actor "actor_id"
        let films ← db actorFilmsSql [aid]
        let aname ← getKey actor "name"
        let items ← films.mapM (fun f => do
          let t ← getKey f "title"
          let y ← getKey f "release_year"
          let c ← getKey f "category"
          pure (PyVal.dict [("title", t), ("release_year", y), ("category", c)]))
        pure (some (.dict [("actor_name", aname),
          ("films", .list items), ("total_films", .int films.length)]))
  else .error (.valueError "俳優名を指定してください")

/-- `search_customers` (lines 376-415). -/
def hSearchCustomers (a : Args) (db : Db) : Except PyExc (Option PyVal) := do
  let store_id ← validate_store_id (argGet a "store_id" .null)
  let limit ← validate_limit (argGet a "limit" (.int DEFAULT_LIMIT)) MAX_LIMIT
  let bp := searchCustomersBuild (argGet a "name" .null) (argGet a "email" .null)
    store_id (argGet a "active_only" (.bool true)) limit
  let rows ← db bp.1 bp.2
  pure (some (.list (rows.map PyVal.dict)))

/-- `get_customer_details` (lines 418-473).  `if not customer_id and not
email:` tests truthiness, so `customer_id = 0` counts as absent. -/
def hGetCustomerDetails (a : Args) (db : Db) : Except PyExc (Option PyVal) := do
  let customer_id := argGet a "customer_id" .null
  let email := argGet a "email" .null
  if !truthy customer_id && !truthy email then
    .error (.valueError "customer_id または email を指定してください")
  else do
    let bp := customerDetailsBuild customer_id email
    let results ← db bp.1 bp.2
    match results with
    | [] => pure none
    | customer :: _ => do
        let cid ← getKey customer "customer_id"
        let stats ← db customerStatsSql [cid]
        match stats with
        | [] => pure (some (.dict customer))
        | st :: _ => do
            let tr ← getKey st "total_rentals"
            let tsRaw ← getKey st "total_spent"
            let ts ← floatOrZero tsRaw
            let outst ← getKey st "outstanding_rentals"
            let customer := setKey customer "total_rentals" tr
            let customer := setKey customer "total_spent" ts
            let customer := setKey customer "outstanding_rentals" outst
            pure (some (.dict customer))

/-- `get_customer_rentals` (lines 481-535). -/
def hGetCustomerRentals (a : Args) (db : Db) : Except PyExc (Option PyVal) := do
  let customer_id := argGet a "customer_id" .null
  let status ← validate_rental_status (argGet a "status" (.str "all"))
  let limit ← validate_limit (argGet a "limit" (.int DEFAULT_LIMIT)) MAX_LIMIT
  let customers ← db custLookupSql [customer_id]
  match customers with
  | [] => pure none
  | customer :: _ => do
      let bp := customerRentalsBuild customer_id status limit
      let rentals ← db bp.1 bp.2
      let count_result ← db rentalsCountSql [customer_id]
      let cid ← getKey customer "customer_id"
      let cname ← getKey customer "name"
      let total_count ← countOf count_result
      pure (some (.dict [("customer_id", cid), ("customer_name", cname),
        ("rentals", .list (rentals.map PyVal.dict)), ("total_count", total_count)]))

/-- `get_overdue_rentals` (lines 538-576). -/
def hGetOverdueRentals (a : Args) (db : Db) : Except PyExc (Option PyVal) := do
  let store_id ← validate_store_id (argGet a "store_id" .null)
  let limit ← validate_limit (argGet a "limit" (.int 20)) 100
  let bp ← overdueBuild store_id (argGet a "days_overdue" (.int 0)) limit
  let rows ← db bp.1 bp.2
  pure (some (.list (rows.map PyVal.dict)))

/-- One ranked entry of `get_popular_films` (lines 629-638). -/
def popularItem (i : Nat) (r : Row) : Except PyExc PyVal := do
  let t ← getKey r "title"
  let c ← getKey r "category"
  let rc ← getKey r "rental_count"
  let trRaw ← getKey r "total_revenue"
  let tr ← floatOrZero trRaw
  pure (.dict [("rank", .int (i + 1)), ("title", t), ("category", c),
    ("rental_count", rc), ("total_revenue", tr)])

/-- `get_popular_films` (lines 584-638). -/
def hGetPopularFilms (a : Args) (db : Db) : Except PyExc (Option PyVal) := do
  let period ← validate_period (argGet a "period" (.str "all_time"))
  let store_id ← validate_store_id (argGet a "store_id" .null)
  let limit ← validate_limit (argGet a "limit" (.int DEFAULT_LIMIT)) MAX_LIMIT
  let bp := popularFilmsBuild period (argGet a "category" .null) store_id limit
  let results ← db bp.1 bp.2
  let items ← results.enum.mapM (fun ir => popularItem ir.1 ir.2)
  pure (some (.list items))

/-- One summary row of `get_revenue_summary` (lines 717-722): coerce the
`total_revenue` column to float, keep the rest. -/
def revenueRowShape (r : Row) : Except PyExc Row :=
  r.mapM (fun kv => do
    if kv.1 = "total_revenue" then do
      let q ← pyFloat kv.2
      pure (kv.1, PyVal.float q)
    else pure kv)

/-- `get_revenue_summary` (lines 641-726). -/
def hGetRevenueSummary (a : Args) (db : Db) : Except PyExc (Option PyVal) := do
  let group_by ← validate_group_by (argGet a "group_by" (.str "store"))
  let store_id ← validate_store_id (argGet a "store_id" .null)
  let bp := revenueSummaryBuild group_by store_id
  let results ← db bp.1 bp.2
  let summary ← results.mapM revenueRowShape
  let revs ← summary.mapM (fun r => getKey r "total_revenue")
  let grand_total ← pySum revs
  pure (some (.dict [("summary", .list (summary.map PyVal.dict)),
    ("grand_total", grand_total)]))

/-- One row of `get_store_stats` (lines 763-775). -/
def storeStatsItem (r : Row) : Except PyExc PyVal := do
  let sid ← getKey r "store_id"
  let mgr ← getKey r "manager"
  let addr ← getKey r "address"
  let tc ← getKey r "total_customers"
  let ac ← getKey r "active_customers"
  let ti ← getKey r "total_inventory"
  let trn ← getKey r "total_rentals"
  let tvRaw ← getKey r "total_revenue"
  let tv ← floatOrZero tvRaw
  pure (.dict [("store_id", sid), ("manager", mgr), ("address", addr),
    ("total_customers", tc), ("active_customers", ac), ("total_inventory", ti),
    ("total_rentals", trn), ("total_revenue", tv)])

/-- `get_store_stats` (lines 729-775). -/
def hGetStoreStats (a : Args) (db : Db) : Except PyExc (Option PyVal) := do
  let store_id ← validate_store_id (argGet a "store_id" .null)
  let bp := storeStatsBuild store_id
  let results ← db bp.1 bp.2
  let items ← results.mapM storeStatsItem
  pure (some (.list items))

/-- One ranked entry of `get_top_customers` (lines 823-834). -/
def topCustomerItem (i : Nat) (r : Row) : Except PyExc PyVal := do
  let cid ← getKey r "customer_id"
  let nm ← getKey r "name"
  let em ← getKey r "email"
  let st ← getKey r "store"
  let rc ← getKey r "rental_count"
  let tsRaw ← getKey r "total_spent"
  let ts ← floatOrZero tsRaw
  pure (.dict [("rank", .int (i + 1)), ("customer_id", cid), ("name", nm),
    ("email", em), ("store", st), ("rental_count", rc), ("total_spent", ts)])

/-- `get_top_customers` (lines 783-834). -/
def hGetTopCustomers (a : Args) (db : Db) : Except PyExc (Option PyVal) := do
  let metric ← validate_metric (argGet a "metric" (.str "spending"))
  let period ← validate_period (argGet a "period" (.str "all_time"))
  let limit ← validate_limit (argGet a "limit" (.int DEFAULT_LIMIT)) MAX_LIMIT
  let bp := topCustomersBuild metric period limit
  let results ← db bp.1 bp.2
  let items ← results.enum.mapM (fun ir => topCustomerItem ir.1 ir.2)
  pure (some (.list items))

/-- The reported structure of `get_customer_segments` (lines 875-886). -/
def segResultToPy (res : SegResult) : PyVal :=
  .dict [("segments", .list (res.segments.map (fun e =>
      .dict [("segment", .str e.segment), ("count", .int e.count),
        ("percentage", e.percentage), ("criteria", .str e.criteria)]))),
    ("total_customers", .int res.total_customers)]

/-- `get_customer_segments` (lines 837-886). -/
def hGetCustomerSegments (_a : Args) (db : Db) : Except PyExc (Option PyVal) := do
  let results ← db segmentsSql []
  let res ← customerSegmentsShape results
  pure (some (segResultToPy res))

/-- `get_customer_activity` (lines 889-948). -/
def hGetCustomerActivity (a : Args) (db : Db) : Except PyExc (Option PyVal) := do
  let period ← validate_period (argGet a "period" (.str "last_month"))
  let v ← customerActivityRun period db
  pure (some v)

/-- One row of `get_inventory_turnover` (lines 988-997). -/
def turnoverItem (r : Row) : Except PyExc PyVal := do
  let t ← getKey r "title"
  let c ← getKey r "category"
  let ic ← getKey r "inventory_count"
  let rc ← getKey r "rental_count"
  let trRaw ← getKey r "turnover_rate"
  let tr ← floatOrZero trRaw
  pure (.dict [("title", t), ("category", c), ("inventory_count", ic),
    ("rental_count", rc), ("turnover_rate", tr)])

/-- `get_inventory_turnover` (lines 956-997). -/
def hGetInventoryTurnover (a : Args) (db : Db) : Except PyExc (Option PyVal) := do
  let store_id ← validate_store_id (argGet a "store_id" .null)
  let bp := inventoryTurnoverBuild store_id (argGet a "category" .null)
  let results ← db bp.1 bp.2
  let items ← results.mapM turnoverItem
  pure (some (.list items))

/-- One row of `get_category_performance` (lines 1035-1044). -/
def catPerfItem (r : Row) : Except PyExc PyVal := do
  let c ← getKey r "category"
  let fc ← getKey r "film_count"
  let rc ← getKey r "rental_count"
  let trRaw ← getKey r "total_revenue"
  let tr ← floatOrZero trRaw
  let avRaw ← getKey r "avg_rentals_per_film"
  let av ← floatOrZero avRaw
  pure (.dict [("category", c), ("film_count", fc), ("rental_count", rc),
    ("total_revenue", tr), ("avg_rentals_per_film", av)])

/-- `get_category_performance` (lines 1000-1044). -/
def hGetCategoryPerformance (a : Args) (db : Db) : Except PyExc (Option PyVal) := do
  let period ← validate_period (argGet a "period" (.str "all_time"))
  let store_id ← validate_store_id (argGet a "store_id" .null)
  let bp := categoryPerformanceBuild period store_id
  let results ← db bp.1 bp.2
  let items ← results.mapM catPerfItem
  pure (some (.list items))

/-- `max(1, min(365, days_not_rented))` (line 1050) on the supplied value.
Ints and bools are modelled; a non-numeric value raises `TypeError` as in
Python (a float argument, which Python would clamp to a float, is not
modelled — no claim depends on it). -/
def underperformingDays (v : PyVal) : Except PyExc Int :=
  match v with
  | .int n => .ok (max 1 (min 365 n))
  | .bool b => .ok (max 1 (min 365 (if b then 1 else 0)))
  | _ => .error .otherErr

/-- One row of `get_underperforming_films` (lines 1084-1094). -/
def underperformingItem (r : Row) : Except PyExc PyVal := do
  let t ← getKey r "title"
  let c ← getKey r "category"
  let rrRaw ← getKey r "rental_rate"
  let rr ← floatOrZero rrRaw
  let lrd ← getKey r "last_rental_date"
  let lrdV := if truthy lrd then PyVal.str (pyStr lrd) else PyVal.str "なし"
  let dsl ← getKey r "days_since_last_rental"
  let dslV := if truthy dsl then dsl else PyVal.str "N/A"
  let ic ← getKey r "inventory_count"
  pure (.dict [("title", t), ("category", c), ("rental_rate", rr),
    ("last_rental_date", lrdV), ("days_since_last_rental", dslV),
    ("inventory_count", ic)])

/-- `get_underperforming_films` (lines 1047-1094). -/
def hGetUnderperformingFilms (a : Args) (db : Db) : Except PyExc (Option PyVal) := do
  let store_id ← validate_store_id (argGet a "store_id" .null)
  let days ← underperformingDays (argGet a "days_not_rented" (.int 30))
  let bp := underperformingBuild store_id days
  let results ← db bp.1 bp.2
  let items ← results.mapM underperformingItem
  pure (some (.list items))

-- =========================================================================
-- The Dispatcher: call_tool (server.py lines 1358-1472)
-- =========================================================================

def unknownOpMsg (name : String) : String := "エラー: 未知のツールです: " ++ name

def noDataMsg : String := "該当するデータが見つかりませんでした。"

def inputErrPrefix : String := "入力エラー: "

def genericErrMsg : String := "処理中にエラーが発生しました。入力内容を確認してください。"

/-- The common tail of the `try` block (lines 1463-1466): a `None` result
becomes the no-data response, anything else is JSON-serialized. -/
def respond : Option PyVal → List String
  | none => [noDataMsg]
  | some v => [pyDumps v]

/-- The `try` block of `call_tool`: the `if`/`elif` dispatch on the tool
name (lines 1362-1461) followed by the result shaping (1463-1466). -/
def callToolBody (name : String) (a : Args) (db : Db) : Except PyExc (List String) :=
  if name = "search_films" then respond <$> hSearchFilms a db
  else if name = "get_film_details" then respond <$> hGetFilmDetails a db
  else if name = "list_categories" then respond <$> hListCategories a db
  else if name = "check_film_availability" then respond <$> hCheckFilmAvailability a db
  else if name = "get_actor_filmography" then respond <$> hGetActorFilmography a db
  else if name = "search_customers" then respond <$> hSearchCustomers a db
  else if name = "get_customer_details" then respond <$> hGetCustomerDetails a db
  else if name = "get_customer_rentals" then respond <$> hGetCustomerRentals a db
  else if name = "get_overdue_rentals" then respond <$> hGetOverdueRentals a db
  else if name = "get_popular_films" then respond <$> hGetPopularFilms a db
  else if name = "get_revenue_summary" then respond <$> hGetRevenueSummary a db
  else if name = "get_store_stats" then respond <$> hGetStoreStats a db
  else if name = "get_top_customers" then respond <$> hGetTopCustomers a db
  else if name = "get_customer_segments" then respond <$> hGetCustomerSegments a db
  else if name = "get_customer_activity" then respond <$> hGetCustomerActivity a db
  else if name = "get_inventory_turnover" then respond <$> hGetInventoryTurnover a db
  else if name = "get_category_performance" then respond <$> hGetCategoryPerformance a db
  else if name = "get_underperforming_films" then respond <$> hGetUnderperformingFilms a db
  else .ok [unknownOpMsg name]

/-- `call_tool` (lines 1358-1472): the `try`/`except` boundary.  A
`ValueError` surfaces as a caller-visible input error carrying the
validator message; any other exception becomes the fixed generic text. -/
def callTool (name : String) (a : Args) (db : Db) : List String :=
  match callToolBody name a db with
  | .ok r => r
  | .error (.valueError m) => [inputErrPrefix ++ m]
  | .error .otherErr => [genericErrMsg]

def opNames : List String :=
  ["search_films", "get_film_details", "list_categories", "check_film_availability",
   "get_actor_filmography", "search_customers", "get_customer_details",
   "get_customer_rentals", "get_overdue_rentals", "get_popular_films",
   "get_revenue_summary", "get_store_stats", "get_top_customers",
   "get_customer_segments", "get_customer_activity", "get_inventory_turnover",
   "get_category_performance", "get_underperforming_films"]

lemma emap_ok {α β : Type} {f : α → β} {x : Except PyExc α} {r : β}
    (h : (f <$> x) = .ok r) : ∃ v, x = .ok v ∧ r = f v := by
  cases x with
  | error e => exact absurd h (by simp [Functor.map, Except.map])
  | ok v =>
      refine ⟨v, rfl, ?_⟩
      have h2 : f v = r := by simpa [Functor.map, Except.map] using h
      exact h2.symm

set_option maxHeartbeats 2000000 in
lemma callToolBody_ok_shape (name : String) (a : Args) (db : Db) (r : List String)
    (h : callToolBody name a db = .ok r) :
    r = [unknownOpMsg name] ∨ ∃ x : Option PyVal, r = respond x := by
  unfold callToolBody at h
  by_cases e1 : name = "search_films"
  · rw [if_pos e1] at h
    right
    obtain ⟨v, _, rfl⟩ := emap_ok h
    exact ⟨v, rfl⟩
  · rw [if_neg e1] at h
    by_cases e2 : name = "get_film_details"
    · rw [if_pos e2] at h
      right
      obtain ⟨v, _, rfl⟩ := emap_ok h
      exact ⟨v, rfl⟩
    · rw [if_neg e2] at h
      by_cases e3 : name = "list_categories"
      · rw [if_pos e3] at h
        right
        obtain ⟨v, _, rfl⟩ := emap_ok h
        exact ⟨v, rfl⟩
      · rw [if_neg e3] at h
        by_cases e4 : name = "check_film_availability"
        · rw [if_pos e4] at h
          right
          obtain ⟨v, _, rfl⟩ := emap_ok h
          exact ⟨v, rfl⟩
        · rw [if_neg e4] at h
          by_cases e5 : name = "get_actor_filmography"
          · rw [if_pos e5] at h
            right
            obtain ⟨v, _, rfl⟩ := emap_ok h
            exact ⟨v, rfl⟩
          · rw [if_neg e5] at h
            by_cases e6 : name = "search_customers"
            · rw [if_pos e6] at h
              right
              obtain ⟨v, _, rfl⟩ := emap_ok h
              exact ⟨v, rfl⟩
            · rw [if_neg e6] at h
              by_cases e7 : name = "get_customer_details"
              · rw [if_pos e7] at h
                right
                obtain ⟨v, _, rfl⟩ := emap_ok h
                exact ⟨v, rfl⟩
              · rw [if_neg e7] at h
                by_cases e8 : name = "get_customer_rentals"
                · rw [if_pos e8] at h
                  right
                  obtain ⟨v, _, rfl⟩ := emap_ok h
                  exact ⟨v, rfl⟩
                · rw [if_neg e8] at h
                  by_cases e9 : name = "get_overdue_rentals"
                  · rw [if_pos e9] at h
                    right
                    obtain ⟨v, _, rfl⟩ := emap_ok h
                    exact ⟨v, rfl⟩
                  · rw [if_neg e9] at h
                    by_cases e10 : name = "get_popular_films"
                    · rw [if_pos e10] at h
                      right
                      obtain ⟨v, _, rfl⟩ := emap_ok h
                      exact ⟨v, rfl⟩
                    · rw [if_neg e10] at h
                      by_cases e11 : name = "get_revenue_summary"
                      · rw [if_pos e11] at h
                        right
                        obtain ⟨v, _, rfl⟩ := emap_ok h
                        exact ⟨v, rfl⟩
                      · rw [if_neg e11] at h
                        by_cases e12 : name = "get_store_stats"
                        · rw [if_pos e12] at h
                          right
                          obtain ⟨v, _, rfl⟩ := emap_ok h
                          exact ⟨v, rfl⟩
                        · rw [if_neg e12] at h
                          by_cases e13 : name = "get_top_customers"
                          · rw [if_pos e13] at h
                            right
                            obtain ⟨v, _, rfl⟩ := emap_ok h
                            exact ⟨v, rfl⟩
                          · rw [if_neg e13] at h
                            by_cases e14 : name = "get_customer_segments"
                            · rw [if_pos e14] at h
                              right
                              obtain ⟨v, _, rfl⟩ := emap_ok h
                              exact ⟨v, rfl⟩
                            · rw [if_neg e14] at h
                              by_cases e15 : name = "get_customer_activity"
                              · rw [if_pos e15] at h
                                right
                                obtain ⟨v, _, rfl⟩ := emap_ok h
                                exact ⟨v, rfl⟩
                              · rw [if_neg e15] at h
                                by_cases e16 : name = "get_inventory_turnover"
                                · rw [if_pos e16] at h
                                  right
                                  obtain ⟨v, _, rfl⟩ := emap_ok h
                                  exact ⟨v, rfl⟩
                                · rw [if_neg e16] at h
                                  by_cases e17 : name = "get_category_performance"
                                  · rw [if_pos e17] at h
                                    right
                                    obtain ⟨v, _, rfl⟩ := emap_ok h
                                    exact ⟨v, rfl⟩
                                  · rw [if_neg e17] at h
                                    by_cases e18 : name = "get_underperforming_films"
                                    · rw [if_pos e18] at h
                                      right
                                      obtain ⟨v, _, rfl⟩ := emap_ok h
                                      exact ⟨v, rfl⟩
                                    · rw [if_neg e18] at h
                                      left
                                      exact (Except.ok.inj h).symm

lemma respond_len (x : Option PyVal) : (respond x).length = 1 := by
  cases x <;> simp [respond]

/-- C5: the dispatcher always answers with exactly one text block, never
letting an exception escape: an unrecognized name yields the unknown-tool
text inside the `try` block, a `ValueError` raised by a validator yields
the input-error message carrying the validator text, and any other
exception yields the fixed generic message; two concrete pipelines
exercise the validator path and the driver-fault path. -/
theorem c5_dispatcher_total_classification :
    (∀ name a db, name ∉ opNames → callTool name a db = [unknownOpMsg name]) ∧
    (∀ name a db m, callToolBody name a db = .error (.valueError m) →
      callTool name a db = [inputErrPrefix ++ m]) ∧
    (∀ name a db, callToolBody name a db = .error .otherErr →
      callTool name a db = [genericErrMsg]) ∧
    (∀ name a db, (callTool name a db).length = 1) ∧
    (∀ db, callTool "search_films" [("rating", .str "X")] db =
      [inputErrPrefix ++ "無効なレーティング: X。有効な値: G, NC-17, PG, PG-13, R"]) ∧
    (callTool "search_films" [] (fun _ _ => .error .otherErr) = [genericErrMsg]) := by
  refine ⟨?_, ?_, ?_, ?_, ?_, ?_⟩
  · intro name a db h
    simp only [opNames, List.mem_cons, List.not_mem_nil, or_false, not_or] at h
    obtain ⟨h1, h2, h3, h4, h5, h6, h7, h8, h9, h10, h11, h12, h13, h14, h15,
      h16, h17, h18⟩ := h
    simp [callTool, callToolBody, h1, h2, h3, h4, h5, h6, h7, h8, h9, h10, h11,
      h12, h13, h14, h15, h16, h17, h18]
  · intro name a db m h
    simp [callTool, h]
  · intro name a db h
    simp [callTool, h]
  · intro name a db
    unfold callTool
    cases hb : callToolBody name a db with
    | error e => cases e <;> simp
    | ok r =>
        rcases callToolBody_ok_shape name a db r hb with rfl | ⟨x, rfl⟩
        · simp [unknownOpMsg]
        · simp [respond_len]
  · intro db
    rfl
  · rfl

/-- Witness for C5: a made-up tool name takes the unknown-operation path. -/
theorem c5_witness :
    callTool "bogus_op" [] (fun _ _ => .ok []) = [unknownOpMsg "bogus_op"] ∧
    callTool "search_films" [("rating", .str "X")] (fun _ _ => .ok []) =
      [inputErrPrefix ++ "無効なレーティング: X。有効な値: G, NC-17, PG, PG-13, R"] :=
  ⟨c5_dispatcher_total_classification.1 "bogus_op" [] (fun _ _ => .ok []) (by decide),
   c5_dispatcher_total_classification.2.2.2.2.1 (fun _ _ => .ok [])⟩

/-- The oracle of a database whose every query returns no rows. -/
def emptyDb : Db := fun _ _ => .ok []

/-- C6 counterexample: `search_films` over an empty result set responds with
the JSON empty list, not the no-data message the claim requires for every
operation. -/
theorem c6_counterexample :
    callTool "search_films" [] emptyDb = ["[]"] ∧
    ("[]" : String) ≠ noDataMsg :=
  ⟨rfl, by decide⟩

/-- C6 (amended): an empty result set never raises: the five operations
that resolve a single entity by (fuzzy) lookup answer with the explicit
no-data response, while the list- and summary-returning operations answer
with the JSON serialization of their empty result (the empty list, or the
zero-count summary), and the no-data response is distinct from every
failure message. -/
theorem c6_empty_results_never_raise :
    callTool "get_film_details" [("title", .str "Love")] emptyDb = [noDataMsg] ∧
    callTool "check_film_availability" [("title", .str "Love")] emptyDb = [noDataMsg] ∧
    callTool "get_actor_filmography" [("actor_name", .str "Nick")] emptyDb = [noDataMsg] ∧
    callTool "get_customer_details" [("customer_id", .int 1)] emptyDb = [noDataMsg] ∧
    callTool "get_customer_rentals" [("customer_id", .int 1)] emptyDb = [noDataMsg] ∧
    callTool "search_films" [] emptyDb = ["[]"] ∧
    callTool "list_categories" [] emptyDb = ["[]"] ∧
    callTool "search_customers" [] emptyDb = ["[]"] ∧
    callTool "get_overdue_rentals" [] emptyDb = ["[]"] ∧
    callTool "get_popular_films" [] emptyDb = ["[]"] ∧
    callTool "get_store_stats" [] emptyDb = ["[]"] ∧
    callTool "get_top_customers" [] emptyDb = ["[]"] ∧
    callTool "get_inventory_turnover" [] emptyDb = ["[]"] ∧
    callTool "get_category_performance" [] emptyDb = ["[]"] ∧
    callTool "get_underperforming_films" [] emptyDb = ["[]"] ∧
    callTool "get_revenue_summary" [] emptyDb =
      [pyDumps (.dict [("summary", .list []), ("grand_total", .int 0)])] ∧
    callTool "get_customer_segments" [] emptyDb =
      [pyDumps (.dict [("segments", .list [
        .dict [("segment", .str "vip"), ("count", .int 0), ("percentage", .int 0),
          ("criteria", .str "レンタル20回以上かつ支払い$100以上")],
        .dict [("segment", .str "regular"), ("count", .int 0), ("percentage", .int 0),
          ("criteria", .str "レンタル10-19回または支払い$50-99")],
        .dict [("segment", .str "occasional"), ("count", .int 0), ("percentage", .int 0),
          ("criteria", .str "レンタル1-9回")],
        .dict [("segment", .str "inactive"), ("count", .int 0), ("percentage", .int 0),
          ("criteria", .str "レンタル0回")]]),
        ("total_customers", .int 0)])] ∧
    callTool "get_customer_activity" [] emptyDb =
      [pyDumps (.dict [("period", .str "last_month"),
        ("activity", .dict [
          ("active", .dict [("count", .int 0), ("percentage", .int 0)]),
          ("new", .dict [("count", .int 0), ("percentage", .int 0)]),
          ("dormant", .dict [("count", .int 0), ("percentage", .int 0)])]),
        ("total_active_customers", .int 0)])] ∧
    noDataMsg ≠ genericErrMsg ∧ noDataMsg ≠ inputErrPrefix := by
  refine ⟨rfl, rfl, rfl, rfl, rfl, rfl, rfl, rfl, rfl, rfl, rfl, rfl, rfl, rfl,
    rfl, rfl, rfl, rfl, by decide, by decide⟩

/-- C9: `get_customer_details` tests argument presence by truthiness, so
`customer_id = 0` counts as absent: with no email the call surfaces the
"specify customer_id or email" input error without touching the database,
and with an email the id filter is skipped in favour of the email filter,
exactly as if `customer_id` were `None`. -/
theorem c9_customer_id_zero_truthiness :
    (∀ db, callTool "get_customer_details" [("customer_id", .int 0)] db =
      [inputErrPrefix ++ "customer_id または email を指定してください"]) ∧
    (∀ email : PyVal, truthy email = true →
      customerDetailsBuild (.int 0) email = customerDetailsBuild .null email ∧
      (customerDetailsBuild (.int 0) email).1 =
        customerDetailsSqlBase ++ " AND c.email LIKE %s" ++ " LIMIT 1") := by
  constructor
  · intro db
    rfl
  · intro email he
    have h0 : truthy (PyVal.int 0) = false := rfl
    have hn : truthy PyVal.null = false := rfl
    constructor
    · simp [customerDetailsBuild, he, h0, hn]
    · simp [customerDetailsBuild, he, h0, hn]

/-- Witness for C9: a concrete email. -/
theorem c9_witness :
    customerDetailsBuild (.int 0) (.str "a@b.example") =
      customerDetailsBuild .null (.str "a@b.example") ∧
    (customerDetailsBuild (.int 0) (.str "a@b.example")).1 =
      customerDetailsSqlBase ++ " AND c.email LIKE %s" ++ " LIMIT 1" :=
  c9_customer_id_zero_truthiness.2 (.str "a@b.example") (by decide)

/-- C10: every successful dispatcher response is produced by the one
serialization point (`respond`, i.e. `json.dumps(-, default=str)` or the
unknown-tool text), serialization is total over all modelled values, and
non-JSON-primitive fields (dates, Decimals) render as their `str()` text in
quotes instead of raising; a concrete row with a date and a Decimal
serializes to the expected JSON. -/
theorem c10_serialization_total :
    (∀ name a db v, callToolBody name a db = .ok v →
      v = [unknownOpMsg name] ∨ ∃ r : Option PyVal, v = respond r) ∧
    (∀ x : PyVal, respond (some x) = [pyDumps x]) ∧
    (∀ s, pyDumps (.date s) = quoteJson s) ∧
    (∀ q s, pyDumps (.decimal q s) = quoteJson s) ∧
    (pyDumps (.list [.dict [("rental_date", .date "2005-05-24"),
        ("rental_rate", .decimal (299/100) "2.99")]]) =
      "[\x7b\"rental_date\": \"2005-05-24\", \"rental_rate\": \"2.99\"\x7d]") := by
  refine ⟨?_, fun x => rfl, fun s => rfl, fun q s => rfl, rfl⟩
  intro name a db v h
  exact callToolBody_ok_shape name a db v h

/-- Witness for C10: the empty search result is a serialized response. -/
theorem c10_witness :
    respond (some (PyVal.list [])) = [pyDumps (.list [])] ∧
    (["[]"] = [unknownOpMsg "search_films"] ∨
      ∃ r : Option PyVal, (["[]"] : List String) = respond r) :=
  ⟨c10_serialization_total.2.1 (PyVal.list []),
   c10_serialization_total.1 "search_films" [] emptyDb ["[]"] rfl⟩
